import Mathlib

/-!
# GyverButton: debounce and gesture classification

A shallow embedding of `GyverButton.cpp` (class `GButton`): the object is a
record of its fields, every member function is a pure function on that
record, and the two things the code reads from the outside world, the pin
level (`digitalRead`) and the millisecond counter (`millis`), are explicit
arguments.

Machine integers are natural numbers; the 32-bit subtraction of the time
comparisons is written out with `% 2^32`.
-/

namespace GyverButton

/-- What `GyverButton.h` declares and the source file only uses: the values of
the constants `HIGH_PULL` and `AUTO`, and the modulus of the unsigned type of
the two click counters `btn_counter` and `last_counter`. The header is not
part of the sources, so the three are parameters of the model. -/
structure Header where
  HIGH_PULL : Bool
  AUTO : Bool
  counterMod : Nat
deriving DecidableEq, Repr

/-- The fields of a `GButton` object; the bit-field `flags` is flattened. `btn_timer`
holds a value of `millis()`, a 32-bit counter; the four timing fields hold what the
`uint16_t` setters store; the two counters are reduced modulo `Header.counterMod`
where the code increments them. -/
structure GButton where
  _PIN : Nat
  _debounce : Nat
  _timeout : Nat
  _click_timeout : Nat
  _step_timeout : Nat
  btn_counter : Nat
  last_counter : Nat
  btn_timer : Nat
  btn_state : Bool
  btn_flag : Bool
  hold_flag : Bool
  counter_flag : Bool
  isHolded_f : Bool
  isRelease_f : Bool
  isPress_f : Bool
  step_flag : Bool
  oneClick_f : Bool
  isOne_f : Bool
  inv_state : Bool
  mode : Bool
  type : Bool
  tickMode : Bool
deriving DecidableEq, Repr

/-- The difference `a - b` of two `uint32_t` values, as C computes it. -/
def sub32 (a b : Nat) : Nat := (a % 4294967296 + (4294967296 - b % 4294967296)) % 4294967296

/-- The body of `GButton::init` (the `pinMode` calls touch only the hardware). -/
def init (h : Header) (s : GButton) : GButton :=
  { s with
    tickMode := h.AUTO
    _debounce := 80
    _timeout := 300
    _click_timeout := 500
    _step_timeout := 400
    btn_state := !s.mode
    btn_flag := false
    hold_flag := false
    counter_flag := false
    isHolded_f := false
    isRelease_f := false
    isPress_f := false
    step_flag := false
    oneClick_f := false
    isOne_f := false
    inv_state := s.mode
    btn_counter := 0
    last_counter := 0
    btn_timer := 0 }

/-- The constructor `GButton(pin, type, dir)` applied to the storage `s`. -/
def construct (h : Header) (s : GButton) (pin : Nat) (type dir : Bool) : GButton :=
  init h { s with _PIN := pin % 256, type := type, mode := dir }

/-- The constructor `GButton(pin)`: `type` and `mode` keep what the storage holds. -/
def constructPin (h : Header) (s : GButton) (pin : Nat) : GButton :=
  init h { s with _PIN := pin % 256 }

def setDebounce (s : GButton) (debounce : Nat) : GButton :=
  { s with _debounce := debounce % 65536 }

def setTimeout (s : GButton) (timeout : Nat) : GButton :=
  { s with _timeout := timeout % 65536 }

def setClickTimeout (s : GButton) (timeout : Nat) : GButton :=
  { s with _click_timeout := timeout % 65536 }

def setStepTimeout (s : GButton) (step_timeout : Nat) : GButton :=
  { s with _step_timeout := step_timeout % 65536 }

def setType (s : GButton) (type : Bool) : GButton :=
  { s with type := type }

def setDirection (s : GButton) (dir : Bool) : GButton :=
  { s with mode := dir, inv_state := dir }

def setTickMode (s : GButton) (tickMode : Bool) : GButton :=
  { s with tickMode := tickMode }

/-- Lines 84-95 of `tick(boolean)`: the press branch. -/
def tickPress (h : Header) (s : GButton) (btnState : Bool) (now : Nat) : GButton :=
  if btnState && !s.btn_state then
    if decide (sub32 now s.btn_timer ≥ s._debounce) || s.btn_timer == 0 then
      { s with
        btn_state := true
        btn_timer := now
        isPress_f := true
        oneClick_f := true
        counter_flag := true
        btn_counter := (s.btn_counter + 1) % h.counterMod }
    else s
  else { s with isPress_f := false }

/-- Lines 97-105: the release branch. -/
def tickRelease (s : GButton) (btnState : Bool) (now : Nat) : GButton :=
  if !btnState && s.btn_state then
    if decide (sub32 now s.btn_timer ≥ s._debounce) || s.btn_timer == 0 then
      { s with
        btn_state := false
        btn_timer := now
        isRelease_f := true
        hold_flag := false
        step_flag := false }
    else s
  else s

/-- Lines 107-116: hold onset. -/
def tickHold (s : GButton) (now : Nat) : GButton :=
  if s.btn_state && decide (sub32 now s.btn_timer ≥ s._timeout) && !s.hold_flag then
    { s with
      hold_flag := true
      isHolded_f := true
      step_flag := true
      counter_flag := false
      btn_counter := 0
      last_counter := 0 }
  else { s with isHolded_f := false }

/-- Lines 118-123: the step repeat. -/
def tickStep (s : GButton) (now : Nat) : GButton :=
  if s.btn_state && s.hold_flag && decide (sub32 now s.btn_timer ≥ s._step_timeout) then
    { s with step_flag := true, btn_timer := now }
  else { s with step_flag := false }

/-- Lines 125-127: hold is cleared while released. -/
def tickHoldClear (s : GButton) : GButton :=
  if !s.btn_state then { s with hold_flag := false } else s

/-- Lines 129-135: the click burst is closed after the click timeout. -/
def tickClicks (s : GButton) (now : Nat) : GButton :=
  if sub32 now s.btn_timer ≥ s._click_timeout then
    let s1 := if s.btn_counter != 0 then
      { s with last_counter := s.btn_counter, btn_counter := 0 } else s
    { s1 with counter_flag := false }
  else s

/-- The member `tick(boolean state)`; `now` is the value `millis()` returns. -/
def tick (h : Header) (s : GButton) (state : Bool) (now : Nat) : GButton :=
  let s0 := { s with btn_flag := state }
  let btnState := s0.btn_flag
  let s1 := tickPress h s0 btnState now
  let s2 := tickRelease s1 btnState now
  let s3 := tickHold s2 now
  let s4 := tickStep s3 now
  let s5 := tickHoldClear s4
  tickClicks s5 now

/-- The member `tick()`; `pin` is the level `digitalRead(_PIN)` returns. -/
def tickPin (h : Header) (s : GButton) (pin : Bool) (now : Nat) : GButton :=
  let pinState := if s.type == h.HIGH_PULL then !pin else pin
  tick h s pinState now

def isPress (s : GButton) : Bool × GButton :=
  if s.isPress_f then (true, { s with isPress_f := false }) else (false, s)

def isRelease (s : GButton) : Bool × GButton :=
  if s.isRelease_f then (true, { s with isRelease_f := false }) else (false, s)

def isClick (h : Header) (s : GButton) (pin : Bool) (now : Nat) : Bool × GButton :=
  let s := if s.tickMode then tickPin h s pin now else s
  if s.oneClick_f && !s.btn_state && !s.hold_flag then
    (true, { s with oneClick_f := false })
  else (false, s)

def isHolded (h : Header) (s : GButton) (pin : Bool) (now : Nat) : Bool × GButton :=
  let s := if s.tickMode then tickPin h s pin now else s
  if s.isHolded_f then (true, { s with isHolded_f := false }) else (false, s)

def isHold (h : Header) (s : GButton) (pin : Bool) (now : Nat) : Bool × GButton :=
  let s := if s.tickMode then tickPin h s pin now else s
  (s.btn_state, s)

def state (h : Header) (s : GButton) (pin : Bool) (now : Nat) : Bool × GButton :=
  let s := if s.tickMode then tickPin h s pin now else s
  (s.btn_state, s)

def isSingle (h : Header) (s : GButton) (pin : Bool) (now : Nat) : Bool × GButton :=
  let s := if s.tickMode then tickPin h s pin now else s
  if s.counter_flag && s.last_counter == 1 then
    (true, { s with counter_flag := false, last_counter := 0 })
  else (false, s)

def isDouble (h : Header) (s : GButton) (pin : Bool) (now : Nat) : Bool × GButton :=
  let s := if s.tickMode then tickPin h s pin now else s
  if s.counter_flag && s.last_counter == 2 then
    (true, { s with counter_flag := false, last_counter := 0 })
  else (false, s)

def isTriple (h : Header) (s : GButton) (pin : Bool) (now : Nat) : Bool × GButton :=
  let s := if s.tickMode then tickPin h s pin now else s
  if s.counter_flag && s.last_counter == 3 then
    (true, { s with counter_flag := false, last_counter := 0 })
  else (false, s)

def hasClicks (h : Header) (s : GButton) (pin : Bool) (now : Nat) : Bool × GButton :=
  let s := if s.tickMode then tickPin h s pin now else s
  if s.counter_flag then (true, { s with counter_flag := false }) else (false, s)

/-- The result is the `uint8_t` local `clicks`. -/
def getClicks (h : Header) (s : GButton) (pin : Bool) (now : Nat) : Nat × GButton :=
  let s := if s.tickMode then tickPin h s pin now else s
  if s.counter_flag then
    (s.last_counter % 256, { s with counter_flag := false, last_counter := 0 })
  else (0, s)

def isStep (h : Header) (s : GButton) (pin : Bool) (now : Nat) : Bool × GButton :=
  let s := if s.tickMode then tickPin h s pin now else s
  if s.step_flag then (true, s) else (false, s)

/-! ## Conditions of `tick`, named for the statements below -/

/-- The debounce test shared by the press and the release branch (lines 85, 98). -/
def accepts (s : GButton) (now : Nat) : Bool :=
  decide (sub32 now s.btn_timer ≥ s._debounce) || s.btn_timer == 0

/-- The condition of line 107. -/
def holdOnset (s : GButton) (now : Nat) : Bool :=
  s.btn_state && decide (sub32 now s.btn_timer ≥ s._timeout) && !s.hold_flag

/-- The condition of line 118. -/
def stepDue (s : GButton) (now : Nat) : Bool :=
  s.btn_state && s.hold_flag && decide (sub32 now s.btn_timer ≥ s._step_timeout)

/-- The condition of line 129. -/
def gapElapsed (s : GButton) (now : Nat) : Bool :=
  decide (sub32 now s.btn_timer ≥ s._click_timeout)

/-! ## Sequences of calls -/

/-- A sequence of `tick(state)` calls, each with the sample and the time it sees. -/
def run (h : Header) (s : GButton) (samples : List (Bool × Nat)) : GButton :=
  samples.foldl (fun acc x => tick h acc x.1 x.2) s

/-- One call of a public member, with what it reads from the pin and the clock. -/
inductive Call where
  | init
  | setDebounce (debounce : Nat)
  | setTimeout (timeout : Nat)
  | setClickTimeout (timeout : Nat)
  | setStepTimeout (step_timeout : Nat)
  | setType (type : Bool)
  | setDirection (dir : Bool)
  | setTickMode (tickMode : Bool)
  | tickPin (pin : Bool) (now : Nat)
  | tick (state : Bool) (now : Nat)
  | isPress
  | isRelease
  | isClick (pin : Bool) (now : Nat)
  | isHolded (pin : Bool) (now : Nat)
  | isHold (pin : Bool) (now : Nat)
  | state (pin : Bool) (now : Nat)
  | isSingle (pin : Bool) (now : Nat)
  | isDouble (pin : Bool) (now : Nat)
  | isTriple (pin : Bool) (now : Nat)
  | hasClicks (pin : Bool) (now : Nat)
  | getClicks (pin : Bool) (now : Nat)
  | isStep (pin : Bool) (now : Nat)
deriving DecidableEq, Repr

/-- The object after the call. -/
def Call.apply (h : Header) (s : GButton) : Call → GButton
  | .init => GyverButton.init h s
  | .setDebounce d => GyverButton.setDebounce s d
  | .setTimeout t => GyverButton.setTimeout s t
  | .setClickTimeout t => GyverButton.setClickTimeout s t
  | .setStepTimeout t => GyverButton.setStepTimeout s t
  | .setType b => GyverButton.setType s b
  | .setDirection b => GyverButton.setDirection s b
  | .setTickMode b => GyverButton.setTickMode s b
  | .tickPin pin now => GyverButton.tickPin h s pin now
  | .tick st now => GyverButton.tick h s st now
  | .isPress => (GyverButton.isPress s).2
  | .isRelease => (GyverButton.isRelease s).2
  | .isClick pin now => (GyverButton.isClick h s pin now).2
  | .isHolded pin now => (GyverButton.isHolded h s pin now).2
  | .isHold pin now => (GyverButton.isHold h s pin now).2
  | .state pin now => (GyverButton.state h s pin now).2
  | .isSingle pin now => (GyverButton.isSingle h s pin now).2
  | .isDouble pin now => (GyverButton.isDouble h s pin now).2
  | .isTriple pin now => (GyverButton.isTriple h s pin now).2
  | .hasClicks pin now => (GyverButton.hasClicks h s pin now).2
  | .getClicks pin now => (GyverButton.getClicks h s pin now).2
  | .isStep pin now => (GyverButton.isStep h s pin now).2

/-- The object after a sequence of calls. -/
def calls (h : Header) (s : GButton) (cs : List Call) : GButton :=
  cs.foldl (Call.apply h) s

/-- The samples of a click schedule: active at each press time, inactive at each
release time. -/
def clickSamples : List (Nat × Nat) → List (Bool × Nat)
  | [] => []
  | (p, r) :: cs => (true, p) :: (false, r) :: clickSamples cs

/-- The times of a click schedule, in order. -/
def clickTimes : List (Nat × Nat) → List Nat
  | [] => []
  | (p, r) :: cs => p :: r :: clickTimes cs

/-- The samples of a continued press that started at counter value `t0`: an active
sample at each elapsed time of the list. -/
def heldSamples (t0 : Nat) (elapsed : List Nat) : List (Bool × Nat) :=
  elapsed.map (fun d => (true, (t0 + d) % 4294967296))

/-! ## Concrete objects for the worked runs -/

/-- The header used in the worked runs: `HIGH_PULL = 0`, `AUTO = 1`, 8-bit click
counters. The general theorems are stated for every header. -/
def hdr : Header := { HIGH_PULL := false, AUTO := true, counterMod := 256 }

/-- Zeroed storage, on which the constructor is run. -/
def zeroed : GButton :=
  { _PIN := 0, _debounce := 0, _timeout := 0, _click_timeout := 0, _step_timeout := 0,
    btn_counter := 0, last_counter := 0, btn_timer := 0, btn_state := false,
    btn_flag := false, hold_flag := false, counter_flag := false, isHolded_f := false,
    isRelease_f := false, isPress_f := false, step_flag := false, oneClick_f := false,
    isOne_f := false, inv_state := false, mode := false, type := false, tickMode := false }

/-- A button on pin 3 built by `GButton(3, HIGH_PULL, dir)` and switched to manual
tick mode: default timing, nothing counted, `btn_timer = 0`. -/
def manualButton (dir : Bool) : GButton :=
  setTickMode (construct hdr zeroed 3 false dir) false

/-- The button of `manualButton true` pressed at 1000 and still pressed at 1300, when
the hold starts. -/
def holdingButton : GButton :=
  tick hdr (tick hdr (manualButton true) true 1000) true 1300

/-- The button of `manualButton false`, which `init` leaves pressed, released by an
inactive sample at 90: nothing counted, `btn_timer = 90`. -/
def releasedAt90 : GButton :=
  tick hdr (manualButton false) false 90

/-- Hold active only while pressed. -/
def HoldInv (s : GButton) : Prop := s.hold_flag = true → s.btn_state = true

/-- The button of `manualButton true` after `n` quick clicks: press `n` at
`200 n + 100` ms, release at `200 n + 200` ms. -/
def clickedTimes : Nat → GButton
  | 0 => manualButton true
  | n + 1 => tick hdr (tick hdr (clickedTimes n) true (200 * n + 100)) false (200 * n + 200)

/-- The samples of a button left alone: an inactive sample at each time of the list. -/
def idleSamples (times : List Nat) : List (Bool × Nat) :=
  times.map (fun t => (false, t))

/-! ## The steps of `tick`, field by field -/

theorem sub32_self (a : Nat) : sub32 a a = 0 := by
  unfold sub32
  omega

theorem sub32_lt (a b : Nat) : sub32 a b < 4294967296 := by
  unfold sub32
  omega

@[simp] theorem tickPress_fields (h : Header) (s : GButton) (b : Bool) (now : Nat) :
    (tickPress h s b now).btn_state = (s.btn_state || (b && accepts s now)) ∧
    (tickPress h s b now).btn_timer =
      (if b && !s.btn_state && accepts s now then now else s.btn_timer) ∧
    (tickPress h s b now).isPress_f =
      (b && !s.btn_state && (accepts s now || s.isPress_f)) ∧
    (tickPress h s b now).oneClick_f = (s.oneClick_f || (b && !s.btn_state && accepts s now)) ∧
    (tickPress h s b now).counter_flag =
      (s.counter_flag || (b && !s.btn_state && accepts s now)) ∧
    (tickPress h s b now).btn_counter =
      (if b && !s.btn_state && accepts s now then (s.btn_counter + 1) % h.counterMod
       else s.btn_counter) ∧
    (tickPress h s b now).last_counter = s.last_counter ∧
    (tickPress h s b now).hold_flag = s.hold_flag ∧
    (tickPress h s b now).step_flag = s.step_flag ∧
    (tickPress h s b now).isHolded_f = s.isHolded_f ∧
    (tickPress h s b now).isRelease_f = s.isRelease_f ∧
    (tickPress h s b now).btn_flag = s.btn_flag ∧
    (tickPress h s b now).isOne_f = s.isOne_f ∧
    (tickPress h s b now).inv_state = s.inv_state ∧
    (tickPress h s b now).mode = s.mode ∧
    (tickPress h s b now).type = s.type ∧
    (tickPress h s b now).tickMode = s.tickMode ∧
    (tickPress h s b now)._PIN = s._PIN ∧
    (tickPress h s b now)._debounce = s._debounce ∧
    (tickPress h s b now)._timeout = s._timeout ∧
    (tickPress h s b now)._click_timeout = s._click_timeout ∧
    (tickPress h s b now)._step_timeout = s._step_timeout := by
  by_cases hd : s._debounce ≤ sub32 now s.btn_timer <;> by_cases h0 : s.btn_timer = 0 <;>
    cases b <;> cases hs : s.btn_state <;> simp [tickPress, accepts, *]

@[simp] theorem tickRelease_fields (s : GButton) (b : Bool) (now : Nat) :
    (tickRelease s b now).btn_state = (s.btn_state && !(!b && accepts s now)) ∧
    (tickRelease s b now).btn_timer =
      (if !b && s.btn_state && accepts s now then now else s.btn_timer) ∧
    (tickRelease s b now).isRelease_f = (s.isRelease_f || (!b && s.btn_state && accepts s now)) ∧
    (tickRelease s b now).hold_flag = (s.hold_flag && !(!b && s.btn_state && accepts s now)) ∧
    (tickRelease s b now).step_flag = (s.step_flag && !(!b && s.btn_state && accepts s now)) ∧
    (tickRelease s b now).isPress_f = s.isPress_f ∧
    (tickRelease s b now).oneClick_f = s.oneClick_f ∧
    (tickRelease s b now).counter_flag = s.counter_flag ∧
    (tickRelease s b now).btn_counter = s.btn_counter ∧
    (tickRelease s b now).last_counter = s.last_counter ∧
    (tickRelease s b now).isHolded_f = s.isHolded_f ∧
    (tickRelease s b now).btn_flag = s.btn_flag ∧
    (tickRelease s b now).isOne_f = s.isOne_f ∧
    (tickRelease s b now).inv_state = s.inv_state ∧
    (tickRelease s b now).mode = s.mode ∧
    (tickRelease s b now).type = s.type ∧
    (tickRelease s b now).tickMode = s.tickMode ∧
    (tickRelease s b now)._PIN = s._PIN ∧
    (tickRelease s b now)._debounce = s._debounce ∧
    (tickRelease s b now)._timeout = s._timeout ∧
    (tickRelease s b now)._click_timeout = s._click_timeout ∧
    (tickRelease s b now)._step_timeout = s._step_timeout := by
  by_cases hd : s._debounce ≤ sub32 now s.btn_timer <;> by_cases h0 : s.btn_timer = 0 <;>
    cases b <;> cases hs : s.btn_state <;> simp [tickRelease, accepts, *]

@[simp] theorem tickHold_fields (s : GButton) (now : Nat) :
    (tickHold s now).hold_flag = (s.hold_flag || holdOnset s now) ∧
    (tickHold s now).isHolded_f = holdOnset s now ∧
    (tickHold s now).step_flag = (s.step_flag || holdOnset s now) ∧
    (tickHold s now).counter_flag = (s.counter_flag && !holdOnset s now) ∧
    (tickHold s now).btn_counter = (if holdOnset s now then 0 else s.btn_counter) ∧
    (tickHold s now).last_counter = (if holdOnset s now then 0 else s.last_counter) ∧
    (tickHold s now).btn_state = s.btn_state ∧
    (tickHold s now).btn_timer = s.btn_timer ∧
    (tickHold s now).isPress_f = s.isPress_f ∧
    (tickHold s now).isRelease_f = s.isRelease_f ∧
    (tickHold s now).oneClick_f = s.oneClick_f ∧
    (tickHold s now).btn_flag = s.btn_flag ∧
    (tickHold s now).isOne_f = s.isOne_f ∧
    (tickHold s now).inv_state = s.inv_state ∧
    (tickHold s now).mode = s.mode ∧
    (tickHold s now).type = s.type ∧
    (tickHold s now).tickMode = s.tickMode ∧
    (tickHold s now)._PIN = s._PIN ∧
    (tickHold s now)._debounce = s._debounce ∧
    (tickHold s now)._timeout = s._timeout ∧
    (tickHold s now)._click_timeout = s._click_timeout ∧
    (tickHold s now)._step_timeout = s._step_timeout := by
  by_cases hd : s._timeout ≤ sub32 now s.btn_timer <;>
    cases hs : s.btn_state <;> cases hh : s.hold_flag <;> simp [tickHold, holdOnset, *]

@[simp] theorem tickStep_fields (s : GButton) (now : Nat) :
    (tickStep s now).step_flag = stepDue s now ∧
    (tickStep s now).btn_timer = (if stepDue s now then now else s.btn_timer) ∧
    (tickStep s now).hold_flag = s.hold_flag ∧
    (tickStep s now).isHolded_f = s.isHolded_f ∧
    (tickStep s now).counter_flag = s.counter_flag ∧
    (tickStep s now).btn_counter = s.btn_counter ∧
    (tickStep s now).last_counter = s.last_counter ∧
    (tickStep s now).btn_state = s.btn_state ∧
    (tickStep s now).isPress_f = s.isPress_f ∧
    (tickStep s now).isRelease_f = s.isRelease_f ∧
    (tickStep s now).oneClick_f = s.oneClick_f ∧
    (tickStep s now).btn_flag = s.btn_flag ∧
    (tickStep s now).isOne_f = s.isOne_f ∧
    (tickStep s now).inv_state = s.inv_state ∧
    (tickStep s now).mode = s.mode ∧
    (tickStep s now).type = s.type ∧
    (tickStep s now).tickMode = s.tickMode ∧
    (tickStep s now)._PIN = s._PIN ∧
    (tickStep s now)._debounce = s._debounce ∧
    (tickStep s now)._timeout = s._timeout ∧
    (tickStep s now)._click_timeout = s._click_timeout ∧
    (tickStep s now)._step_timeout = s._step_timeout := by
  by_cases hd : s._step_timeout ≤ sub32 now s.btn_timer <;>
    cases hs : s.btn_state <;> cases hh : s.hold_flag <;> simp [tickStep, stepDue, *]

@[simp] theorem tickHoldClear_fields (s : GButton) :
    (tickHoldClear s).hold_flag = (s.hold_flag && s.btn_state) ∧
    (tickHoldClear s).step_flag = s.step_flag ∧
    (tickHoldClear s).btn_timer = s.btn_timer ∧
    (tickHoldClear s).isHolded_f = s.isHolded_f ∧
    (tickHoldClear s).counter_flag = s.counter_flag ∧
    (tickHoldClear s).btn_counter = s.btn_counter ∧
    (tickHoldClear s).last_counter = s.last_counter ∧
    (tickHoldClear s).btn_state = s.btn_state ∧
    (tickHoldClear s).isPress_f = s.isPress_f ∧
    (tickHoldClear s).isRelease_f = s.isRelease_f ∧
    (tickHoldClear s).oneClick_f = s.oneClick_f ∧
    (tickHoldClear s).btn_flag = s.btn_flag ∧
    (tickHoldClear s).isOne_f = s.isOne_f ∧
    (tickHoldClear s).inv_state = s.inv_state ∧
    (tickHoldClear s).mode = s.mode ∧
    (tickHoldClear s).type = s.type ∧
    (tickHoldClear s).tickMode = s.tickMode ∧
    (tickHoldClear s)._PIN = s._PIN ∧
    (tickHoldClear s)._debounce = s._debounce ∧
    (tickHoldClear s)._timeout = s._timeout ∧
    (tickHoldClear s)._click_timeout = s._click_timeout ∧
    (tickHoldClear s)._step_timeout = s._step_timeout := by
  cases hs : s.btn_state <;> simp [tickHoldClear, *]

@[simp] theorem tickClicks_fields (s : GButton) (now : Nat) :
    (tickClicks s now).counter_flag = (s.counter_flag && !gapElapsed s now) ∧
    (tickClicks s now).btn_counter = (if gapElapsed s now then 0 else s.btn_counter) ∧
    (tickClicks s now).last_counter =
      (if gapElapsed s now && s.btn_counter != 0 then s.btn_counter else s.last_counter) ∧
    (tickClicks s now).hold_flag = s.hold_flag ∧
    (tickClicks s now).step_flag = s.step_flag ∧
    (tickClicks s now).btn_timer = s.btn_timer ∧
    (tickClicks s now).isHolded_f = s.isHolded_f ∧
    (tickClicks s now).btn_state = s.btn_state ∧
    (tickClicks s now).isPress_f = s.isPress_f ∧
    (tickClicks s now).isRelease_f = s.isRelease_f ∧
    (tickClicks s now).oneClick_f = s.oneClick_f ∧
    (tickClicks s now).btn_flag = s.btn_flag ∧
    (tickClicks s now).isOne_f = s.isOne_f ∧
    (tickClicks s now).inv_state = s.inv_state ∧
    (tickClicks s now).mode = s.mode ∧
    (tickClicks s now).type = s.type ∧
    (tickClicks s now).tickMode = s.tickMode ∧
    (tickClicks s now)._PIN = s._PIN ∧
    (tickClicks s now)._debounce = s._debounce ∧
    (tickClicks s now)._timeout = s._timeout ∧
    (tickClicks s now)._click_timeout = s._click_timeout ∧
    (tickClicks s now)._step_timeout = s._step_timeout := by
  by_cases hd : s._click_timeout ≤ sub32 now s.btn_timer <;>
    by_cases hc : s.btn_counter = 0 <;> simp [tickClicks, gapElapsed, *]

/-! ## One `tick`, field by field -/

theorem tick_btn_state (h : Header) (s : GButton) (st : Bool) (now : Nat) :
    (tick h s st now).btn_state =
      ((s.btn_state || (st && accepts s now)) && !(!st && accepts s now)) := by
  cases st <;> cases hs : s.btn_state <;> simp [tick, accepts, hs]

theorem tick_config (h : Header) (s : GButton) (st : Bool) (now : Nat) :
    (tick h s st now)._debounce = s._debounce ∧ (tick h s st now)._timeout = s._timeout ∧
    (tick h s st now)._click_timeout = s._click_timeout ∧
    (tick h s st now)._step_timeout = s._step_timeout := by
  simp [tick]

theorem tick_timer_of_change (h : Header) (s : GButton) (st : Bool) (now : Nat)
    (hc : (tick h s st now).btn_state ≠ s.btn_state) :
    (tick h s st now).btn_state = st ∧ (tick h s st now).btn_timer = now := by
  revert hc
  by_cases hd : s._debounce ≤ sub32 now s.btn_timer <;> by_cases h0 : s.btn_timer = 0 <;>
    cases st <;> cases hs : s.btn_state <;>
    simp [tick, accepts, stepDue, holdOnset, gapElapsed, hs, hd, h0, sub32_self]

theorem tick_hold_pressed (h : Header) (s : GButton) (st : Bool) (now : Nat)
    (hh : (tick h s st now).hold_flag = true) : (tick h s st now).btn_state = true := by
  revert hh
  simp only [tick, tickClicks_fields, tickHoldClear_fields]
  simp

theorem tick_step_flag (h : Header) (s : GButton) (st : Bool) (now : Nat) :
    (tick h s st now).step_flag =
      stepDue (tickHold (tickRelease (tickPress h { s with btn_flag := st } st now) st now) now)
        now := by
  simp [tick]

theorem tick_step_raised (h : Header) (s : GButton) (st : Bool) (now : Nat)
    (hs : (tick h s st now).step_flag = true) :
    (tick h s st now).btn_timer = now ∧ (tick h s st now).hold_flag = true ∧
    (tick h s st now).btn_state = true := by
  revert hs
  simp only [tick]
  generalize tickHold (tickRelease (tickPress h { s with btn_flag := st } st now) st now) now = w
  cases hb : w.btn_state <;> cases hh : w.hold_flag <;>
    by_cases hd : w._step_timeout ≤ sub32 now w.btn_timer <;> simp [stepDue, hb, hh, hd]

theorem holdInv_init (h : Header) (s : GButton) : HoldInv (init h s) := by
  simp [HoldInv, init]

theorem holdInv_tick (h : Header) (s : GButton) (st : Bool) (now : Nat) :
    HoldInv (tick h s st now) :=
  tick_hold_pressed h s st now

theorem holdInv_auto (h : Header) (s : GButton) (pin : Bool) (now : Nat) (hs : HoldInv s) :
    HoldInv (if s.tickMode = true then tickPin h s pin now else s) := by
  split_ifs
  · exact holdInv_tick h s _ now
  · exact hs

theorem holdInv_apply (h : Header) (s : GButton) (c : Call) (hs : HoldInv s) :
    HoldInv (c.apply h s) := by
  cases c with
  | init => exact holdInv_init h s
  | tickPin pin now => exact holdInv_tick h s _ now
  | tick st now => exact holdInv_tick h s st now
  | isPress => unfold Call.apply isPress; split_ifs <;> simpa [HoldInv] using hs
  | isRelease => unfold Call.apply isRelease; split_ifs <;> simpa [HoldInv] using hs
  | isClick pin now =>
    have hu := holdInv_auto h s pin now hs
    revert hu
    simp only [Call.apply, isClick]
    generalize (if s.tickMode = true then tickPin h s pin now else s) = u
    intro hu
    split_ifs <;> simpa [HoldInv] using hu
  | isHolded pin now =>
    have hu := holdInv_auto h s pin now hs
    revert hu
    simp only [Call.apply, isHolded]
    generalize (if s.tickMode = true then tickPin h s pin now else s) = u
    intro hu
    split_ifs <;> simpa [HoldInv] using hu
  | isHold pin now =>
    have hu := holdInv_auto h s pin now hs
    revert hu
    simp only [Call.apply, isHold]
    exact id
  | state pin now =>
    have hu := holdInv_auto h s pin now hs
    revert hu
    simp only [Call.apply, state]
    exact id
  | isSingle pin now =>
    have hu := holdInv_auto h s pin now hs
    revert hu
    simp only [Call.apply, isSingle]
    generalize (if s.tickMode = true then tickPin h s pin now else s) = u
    intro hu
    split_ifs <;> simpa [HoldInv] using hu
  | isDouble pin now =>
    have hu := holdInv_auto h s pin now hs
    revert hu
    simp only [Call.apply, isDouble]
    generalize (if s.tickMode = true then tickPin h s pin now else s) = u
    intro hu
    split_ifs <;> simpa [HoldInv] using hu
  | isTriple pin now =>
    have hu := holdInv_auto h s pin now hs
    revert hu
    simp only [Call.apply, isTriple]
    generalize (if s.tickMode = true then tickPin h s pin now else s) = u
    intro hu
    split_ifs <;> simpa [HoldInv] using hu
  | hasClicks pin now =>
    have hu := holdInv_auto h s pin now hs
    revert hu
    simp only [Call.apply, hasClicks]
    generalize (if s.tickMode = true then tickPin h s pin now else s) = u
    intro hu
    split_ifs <;> simpa [HoldInv] using hu
  | getClicks pin now =>
    have hu := holdInv_auto h s pin now hs
    revert hu
    simp only [Call.apply, getClicks]
    generalize (if s.tickMode = true then tickPin h s pin now else s) = u
    intro hu
    split_ifs <;> simpa [HoldInv] using hu
  | isStep pin now =>
    have hu := holdInv_auto h s pin now hs
    revert hu
    simp only [Call.apply, isStep]
    generalize (if s.tickMode = true then tickPin h s pin now else s) = u
    intro hu
    split_ifs <;> simpa [HoldInv] using hu
  | _ => simpa [HoldInv, Call.apply, setDebounce, setTimeout, setClickTimeout, setStepTimeout,
      setType, setDirection, setTickMode] using hs

theorem holdInv_calls (h : Header) (cs : List Call) :
    ∀ s : GButton, HoldInv s → HoldInv (calls h s cs) := by
  induction cs with
  | nil => intro s hs; exact hs
  | cons c cs ih =>
    intro s hs
    exact ih (c.apply h s) (holdInv_apply h s c hs)

theorem tick_press_click (h : Header) (s : GButton) (p : Nat)
    (hb : s.btn_state = false) (hh : s.hold_flag = false) (ha : accepts s p = true)
    (hT : 0 < s._timeout) (hC : 0 < s._click_timeout) :
    (tick h s true p).btn_state = true ∧ (tick h s true p).hold_flag = false ∧
    (tick h s true p).btn_timer = p ∧
    (tick h s true p).btn_counter = (s.btn_counter + 1) % h.counterMod := by
  have hT' : s._timeout ≠ 0 := by omega
  have hC' : s._click_timeout ≠ 0 := by omega
  revert ha
  by_cases hd : s._debounce ≤ sub32 p s.btn_timer <;> by_cases h0 : s.btn_timer = 0 <;>
    simp [tick, accepts, stepDue, holdOnset, gapElapsed, hb, hh, hd, h0, sub32_self, hT', hC']

theorem tick_release_click (h : Header) (s : GButton) (r : Nat)
    (hb : s.btn_state = true) (hh : s.hold_flag = false) (ha : accepts s r = true)
    (hC : 0 < s._click_timeout) :
    (tick h s false r).btn_state = false ∧ (tick h s false r).hold_flag = false ∧
    (tick h s false r).btn_timer = r ∧
    (tick h s false r).btn_counter = s.btn_counter := by
  have hC' : s._click_timeout ≠ 0 := by omega
  revert ha
  by_cases hd : s._debounce ≤ sub32 r s.btn_timer <;> by_cases h0 : s.btn_timer = 0 <;>
    simp [tick, accepts, stepDue, holdOnset, gapElapsed, hb, hh, hd, h0, sub32_self, hC']

theorem tick_close_burst (h : Header) (s : GButton) (e : Nat)
    (hb : s.btn_state = false) (hg : s._click_timeout ≤ sub32 e s.btn_timer)
    (hc : s.btn_counter ≠ 0) :
    (tick h s false e).last_counter = s.btn_counter ∧ (tick h s false e).btn_counter = 0 := by
  simp [tick, stepDue, holdOnset, gapElapsed, hb, hg, hc]

theorem sub32_of_le (a b : Nat) (hab : a ≤ b) (hb : b < 4294967296) : sub32 b a = b - a := by
  unfold sub32
  omega

theorem run_cons (h : Header) (s : GButton) (x : Bool × Nat) (xs : List (Bool × Nat)) :
    run h s (x :: xs) = run h (tick h s x.1 x.2) xs := rfl

theorem run_clicks (h : Header) : ∀ (cycles : List (Nat × Nat)) (s : GButton),
    s.btn_state = false → s.hold_flag = false → 0 < s._timeout →
    List.Chain' (fun a b => a + s._debounce ≤ b ∧ b < a + s._click_timeout) (clickTimes cycles) →
    (∀ t ∈ clickTimes cycles, t < 4294967296) →
    (∀ p ∈ (clickTimes cycles).head?, accepts s p = true) →
    s.btn_counter + cycles.length < h.counterMod →
    (run h s (clickSamples cycles)).btn_state = false ∧
    (run h s (clickSamples cycles)).hold_flag = false ∧
    (run h s (clickSamples cycles)).btn_counter = s.btn_counter + cycles.length ∧
    (run h s (clickSamples cycles))._click_timeout = s._click_timeout ∧
    (∀ r ∈ (clickTimes cycles).getLast?, (run h s (clickSamples cycles)).btn_timer = r) := by
  intro cycles
  induction cycles with
  | nil =>
    intro s hb hh _ _ _ _ _
    simp [clickSamples, clickTimes, run, hb, hh]
  | cons c rest ih =>
    obtain ⟨p, r⟩ := c
    intro s hb hh hT hch hlt hfirst hcm
    simp only [clickTimes, List.chain'_cons] at hch
    obtain ⟨⟨hpr, hrp⟩, hch2⟩ := hch
    have hC : 0 < s._click_timeout := by omega
    have hr32 : r < 4294967296 := hlt r (by simp [clickTimes])
    have hacc : accepts s p = true := hfirst p (by simp [clickTimes])
    obtain ⟨a1, a2, a3, a4⟩ := tick_press_click h s p hb hh hacc hT hC
    obtain ⟨c1, c2, c3, c4⟩ := tick_config h s true p
    have hacc2 : accepts (tick h s true p) r = true := by
      have : sub32 r p = r - p := sub32_of_le p r (by omega) hr32
      simp only [accepts, a3, c1, this]
      simp
      left; omega
    obtain ⟨b1, b2, b3, b4⟩ := tick_release_click h (tick h s true p) r a1 a2 hacc2 (by omega)
    obtain ⟨d1, d2, d3, d4⟩ := tick_config h (tick h s true p) false r
    have hlen : (s.btn_counter + 1) % h.counterMod = s.btn_counter + 1 := by
      apply Nat.mod_eq_of_lt
      simp only [List.length_cons] at hcm
      omega
    simp only [clickSamples, run_cons]
    generalize hu : tick h (tick h s true p) false r = u at *
    have hch3 : List.Chain' (fun a b => a + u._debounce ≤ b ∧ b < a + u._click_timeout)
        (clickTimes rest) := by
      rw [d1, d3, c1, c3]
      cases hrest : clickTimes rest with
      | nil => exact List.chain'_nil
      | cons x xs => rw [hrest] at hch2; exact (List.chain'_cons.mp hch2).2
    have hfirst3 : ∀ q ∈ (clickTimes rest).head?, accepts u q = true := by
      intro q hq
      cases hrest : clickTimes rest with
      | nil => rw [hrest] at hq; simp at hq
      | cons x xs =>
        rw [hrest] at hq hch2
        simp at hq
        subst hq
        have hx := (List.chain'_cons.mp hch2).1
        have hx32 : x < 4294967296 := hlt x (by simp [clickTimes, hrest])
        have : sub32 x r = x - r := sub32_of_le r x (by omega) hx32
        simp only [accepts, b3, d1, c1, this]
        simp
        left; omega
    have hres := ih u b1 b2 (by rw [d2, c2]; exact hT) hch3
      (fun t ht => hlt t (by simp [clickTimes, ht])) hfirst3
      (by rw [b4, a4, hlen]; simp only [List.length_cons] at hcm; omega)
    obtain ⟨e1, e2, e3, e4, e5⟩ := hres
    refine ⟨e1, e2, ?_, ?_, ?_⟩
    · rw [e3, b4, a4, hlen, List.length_cons]; omega
    · rw [e4, d3, c3]
    · intro q hq
      simp only [clickTimes] at hq
      cases hrest : clickTimes rest with
      | nil =>
        rw [hrest] at hq
        simp at hq
        subst hq
        cases rest with
        | nil => simpa [clickSamples, run] using b3
        | cons y ys => obtain ⟨y1, y2⟩ := y; simp [clickTimes] at hrest
      | cons x xs =>
        apply e5
        rw [hrest] at hq ⊢
        simpa [List.getLast?_cons_cons] using hq

theorem clickTimes_getLast (cycles : List (Nat × Nat)) (hN : cycles ≠ []) :
    ∃ r, (clickTimes cycles).getLast? = some r := by
  cases cycles with
  | nil => exact absurd rfl hN
  | cons c rest =>
    obtain ⟨p, r⟩ := c
    cases hx : (clickTimes ((p, r) :: rest)).getLast? with
    | none => simp [clickTimes] at hx
    | some x => exact ⟨x, rfl⟩

theorem sub32_add (t0 d : Nat) (hd : d < 4294967296) :
    sub32 ((t0 + d) % 4294967296) t0 = d := by
  unfold sub32
  omega

theorem tick_before_hold (h : Header) (s : GButton) (t0 d : Nat) (hd : d < 4294967296)
    (hb : s.btn_state = true) (hh : s.hold_flag = false) (ht : s.btn_timer = t0)
    (hlt : d < s._timeout) :
    (tick h s true ((t0 + d) % 4294967296)).btn_state = true ∧
    (tick h s true ((t0 + d) % 4294967296)).hold_flag = false ∧
    (tick h s true ((t0 + d) % 4294967296)).btn_timer = t0 ∧
    (tick h s true ((t0 + d) % 4294967296)).isHolded_f = false := by
  have hlt' : ¬ s._timeout ≤ d := by omega
  simp [tick, stepDue, holdOnset, gapElapsed, hb, hh, ht, sub32_add t0 d hd, hlt']

theorem tick_hold_starts (h : Header) (s : GButton) (t0 d : Nat) (hd : d < 4294967296)
    (hb : s.btn_state = true) (hh : s.hold_flag = false) (ht : s.btn_timer = t0)
    (hge : s._timeout ≤ d) :
    (tick h s true ((t0 + d) % 4294967296)).btn_state = true ∧
    (tick h s true ((t0 + d) % 4294967296)).hold_flag = true ∧
    (tick h s true ((t0 + d) % 4294967296)).isHolded_f = true := by
  simp [tick, stepDue, holdOnset, gapElapsed, hb, hh, ht, sub32_add t0 d hd, hge]

theorem tick_while_held (h : Header) (s : GButton) (now : Nat)
    (hb : s.btn_state = true) (hh : s.hold_flag = true) :
    (tick h s true now).btn_state = true ∧ (tick h s true now).hold_flag = true ∧
    (tick h s true now).isHolded_f = false := by
  simp [tick, stepDue, holdOnset, gapElapsed, hb, hh]

theorem run_append_one (h : Header) (s : GButton) (xs : List (Bool × Nat)) (x : Bool × Nat) :
    run h s (xs ++ [x]) = tick h (run h s xs) x.1 x.2 := by
  simp [run, List.foldl_append]

theorem run_timeout (h : Header) : ∀ (xs : List (Bool × Nat)) (s : GButton),
    (run h s xs)._timeout = s._timeout := by
  intro xs
  induction xs with
  | nil => intro s; rfl
  | cons x xs ih =>
    intro s
    rw [run_cons, ih, (tick_config h s x.1 x.2).2.1]

theorem run_while_held (h : Header) (t0 : Nat) : ∀ (l : List Nat) (s : GButton),
    s.btn_state = true → s.hold_flag = true →
    (run h s (heldSamples t0 l)).btn_state = true ∧
    (run h s (heldSamples t0 l)).hold_flag = true := by
  intro l
  induction l with
  | nil => intro s hb hh; exact ⟨hb, hh⟩
  | cons d l ih =>
    intro s hb hh
    obtain ⟨a1, a2, _⟩ := tick_while_held h s ((t0 + d) % 4294967296) hb hh
    simpa [heldSamples, run_cons] using ih _ a1 a2

theorem run_before_hold (h : Header) (t0 : Nat) : ∀ (l : List Nat) (s : GButton),
    s.btn_state = true → s.hold_flag = false → s.btn_timer = t0 →
    (∀ x ∈ l, x < 4294967296) →
    (run h s (heldSamples t0 l))._timeout = s._timeout ∧
    (run h s (heldSamples t0 l)).btn_state = true ∧
    ((∀ x ∈ l, x < s._timeout) →
      (run h s (heldSamples t0 l)).hold_flag = false ∧
      (run h s (heldSamples t0 l)).btn_timer = t0) ∧
    ((∃ x ∈ l, s._timeout ≤ x) → (run h s (heldSamples t0 l)).hold_flag = true) := by
  intro l
  induction l with
  | nil =>
    intro s hb hh ht _
    simp [heldSamples, run, hb, hh, ht]
  | cons d l ih =>
    intro s hb hh ht hl
    have hd : d < 4294967296 := hl d (by simp)
    have hl2 : ∀ x ∈ l, x < 4294967296 := fun x hx => hl x (by simp [hx])
    have hcfg := (tick_config h s true ((t0 + d) % 4294967296)).2.1
    have hrun : run h s (heldSamples t0 (d :: l)) =
        run h (tick h s true ((t0 + d) % 4294967296)) (heldSamples t0 l) := rfl
    rw [hrun]
    by_cases hlt : d < s._timeout
    · obtain ⟨a1, a2, a3, _⟩ := tick_before_hold h s t0 d hd hb hh ht hlt
      obtain ⟨i1, i2, i3, i4⟩ := ih _ a1 a2 a3 hl2
      rw [hcfg] at i1 i3 i4
      refine ⟨i1, i2, ?_, ?_⟩
      · intro hall
        exact i3 (fun x hx => hall x (by simp [hx]))
      · rintro ⟨x, hx, hxT⟩
        simp only [List.mem_cons] at hx
        rcases hx with rfl | hx
        · omega
        · exact i4 ⟨x, hx, hxT⟩
    · obtain ⟨a1, a2, _⟩ := tick_hold_starts h s t0 d hd hb hh ht (by omega)
      obtain ⟨j1, j2⟩ := run_while_held h t0 l _ a1 a2
      refine ⟨?_, j1, ?_, fun _ => j2⟩
      · rw [run_timeout, hcfg]
      · intro hall
        have := hall d (by simp)
        omega

theorem tick_isRelease_sticky (h : Header) (s : GButton) (st : Bool) (now : Nat)
    (hs : s.isRelease_f = true) : (tick h s st now).isRelease_f = true := by
  simp [tick, hs]

theorem run_isRelease_sticky (h : Header) : ∀ (xs : List (Bool × Nat)) (s : GButton),
    s.isRelease_f = true → (run h s xs).isRelease_f = true := by
  intro xs
  induction xs with
  | nil => intro s hs; exact hs
  | cons x xs ih =>
    intro s hs
    rw [run_cons]
    exact ih _ (tick_isRelease_sticky h s x.1 x.2 hs)

theorem auto_isRelease_sticky (h : Header) (s : GButton) (pin : Bool) (now : Nat)
    (hs : s.isRelease_f = true) :
    (if s.tickMode = true then tickPin h s pin now else s).isRelease_f = true := by
  split_ifs
  · exact tick_isRelease_sticky h s _ now hs
  · exact hs

theorem apply_isRelease_sticky (h : Header) (s : GButton) (c : Call)
    (hi : c ≠ Call.init) (hr : c ≠ Call.isRelease) (hs : s.isRelease_f = true) :
    (c.apply h s).isRelease_f = true := by
  cases c with
  | init => exact absurd rfl hi
  | isRelease => exact absurd rfl hr
  | tickPin pin now => exact tick_isRelease_sticky h s _ now hs
  | tick st now => exact tick_isRelease_sticky h s st now hs
  | isPress => unfold Call.apply isPress; split_ifs <;> simpa using hs
  | isClick pin now =>
    have hu := auto_isRelease_sticky h s pin now hs
    revert hu
    simp only [Call.apply, isClick]
    generalize (if s.tickMode = true then tickPin h s pin now else s) = u
    intro hu
    split_ifs <;> simpa using hu
  | isHolded pin now =>
    have hu := auto_isRelease_sticky h s pin now hs
    revert hu
    simp only [Call.apply, isHolded]
    generalize (if s.tickMode = true then tickPin h s pin now else s) = u
    intro hu
    split_ifs <;> simpa using hu
  | isHold pin now =>
    have hu := auto_isRelease_sticky h s pin now hs
    revert hu
    simp only [Call.apply, isHold]
    exact id
  | state pin now =>
    have hu := auto_isRelease_sticky h s pin now hs
    revert hu
    simp only [Call.apply, state]
    exact id
  | isSingle pin now =>
    have hu := auto_isRelease_sticky h s pin now hs
    revert hu
    simp only [Call.apply, isSingle]
    generalize (if s.tickMode = true then tickPin h s pin now else s) = u
    intro hu
    split_ifs <;> simpa using hu
  | isDouble pin now =>
    have hu := auto_isRelease_sticky h s pin now hs
    revert hu
    simp only [Call.apply, isDouble]
    generalize (if s.tickMode = true then tickPin h s pin now else s) = u
    intro hu
    split_ifs <;> simpa using hu
  | isTriple pin now =>
    have hu := auto_isRelease_sticky h s pin now hs
    revert hu
    simp only [Call.apply, isTriple]
    generalize (if s.tickMode = true then tickPin h s pin now else s) = u
    intro hu
    split_ifs <;> simpa using hu
  | hasClicks pin now =>
    have hu := auto_isRelease_sticky h s pin now hs
    revert hu
    simp only [Call.apply, hasClicks]
    generalize (if s.tickMode = true then tickPin h s pin now else s) = u
    intro hu
    split_ifs <;> simpa using hu
  | getClicks pin now =>
    have hu := auto_isRelease_sticky h s pin now hs
    revert hu
    simp only [Call.apply, getClicks]
    generalize (if s.tickMode = true then tickPin h s pin now else s) = u
    intro hu
    split_ifs <;> simpa using hu
  | isStep pin now =>
    have hu := auto_isRelease_sticky h s pin now hs
    revert hu
    simp only [Call.apply, isStep]
    generalize (if s.tickMode = true then tickPin h s pin now else s) = u
    intro hu
    split_ifs <;> simpa using hu
  | _ => simpa [Call.apply, setDebounce, setTimeout, setClickTimeout, setStepTimeout,
      setType, setDirection, setTickMode] using hs

theorem tick_oneClick_kept (h : Header) (s : GButton) (st : Bool) (now : Nat)
    (hs : s.oneClick_f = true) : (tick h s st now).oneClick_f = true := by
  simp [tick, hs]

theorem run_oneClick_kept (h : Header) : ∀ (xs : List (Bool × Nat)) (s : GButton),
    s.oneClick_f = true → (run h s xs).oneClick_f = true := by
  intro xs
  induction xs with
  | nil => intro s hs; exact hs
  | cons x xs ih =>
    intro s hs
    rw [run_cons]
    exact ih _ (tick_oneClick_kept h s x.1 x.2 hs)

theorem auto_oneClick_kept (h : Header) (s : GButton) (pin : Bool) (now : Nat)
    (hs : s.oneClick_f = true) :
    (if s.tickMode = true then tickPin h s pin now else s).oneClick_f = true := by
  split_ifs
  · exact tick_oneClick_kept h s _ now hs
  · exact hs

theorem apply_oneClick_kept (h : Header) (s : GButton) (c : Call)
    (hi : c ≠ Call.init) (hk : ∀ pin now, c ≠ Call.isClick pin now)
    (hs : s.oneClick_f = true) :
    (c.apply h s).oneClick_f = true := by
  cases c with
  | init => exact absurd rfl hi
  | isClick pin now => exact absurd rfl (hk pin now)
  | tickPin pin now => exact tick_oneClick_kept h s _ now hs
  | tick st now => exact tick_oneClick_kept h s st now hs
  | isPress => unfold Call.apply isPress; split_ifs <;> simpa using hs
  | isRelease => unfold Call.apply isRelease; split_ifs <;> simpa using hs
  | isHolded pin now =>
    have hu := auto_oneClick_kept h s pin now hs
    revert hu
    simp only [Call.apply, isHolded]
    generalize (if s.tickMode = true then tickPin h s pin now else s) = u
    intro hu
    split_ifs <;> simpa using hu
  | isHold pin now =>
    have hu := auto_oneClick_kept h s pin now hs
    revert hu
    simp only [Call.apply, isHold]
    exact id
  | state pin now =>
    have hu := auto_oneClick_kept h s pin now hs
    revert hu
    simp only [Call.apply, state]
    exact id
  | isSingle pin now =>
    have hu := auto_oneClick_kept h s pin now hs
    revert hu
    simp only [Call.apply, isSingle]
    generalize (if s.tickMode = true then tickPin h s pin now else s) = u
    intro hu
    split_ifs <;> simpa using hu
  | isDouble pin now =>
    have hu := auto_oneClick_kept h s pin now hs
    revert hu
    simp only [Call.apply, isDouble]
    generalize (if s.tickMode = true then tickPin h s pin now else s) = u
    intro hu
    split_ifs <;> simpa using hu
  | isTriple pin now =>
    have hu := auto_oneClick_kept h s pin now hs
    revert hu
    simp only [Call.apply, isTriple]
    generalize (if s.tickMode = true then tickPin h s pin now else s) = u
    intro hu
    split_ifs <;> simpa using hu
  | hasClicks pin now =>
    have hu := auto_oneClick_kept h s pin now hs
    revert hu
    simp only [Call.apply, hasClicks]
    generalize (if s.tickMode = true then tickPin h s pin now else s) = u
    intro hu
    split_ifs <;> simpa using hu
  | getClicks pin now =>
    have hu := auto_oneClick_kept h s pin now hs
    revert hu
    simp only [Call.apply, getClicks]
    generalize (if s.tickMode = true then tickPin h s pin now else s) = u
    intro hu
    split_ifs <;> simpa using hu
  | isStep pin now =>
    have hu := auto_oneClick_kept h s pin now hs
    revert hu
    simp only [Call.apply, isStep]
    generalize (if s.tickMode = true then tickPin h s pin now else s) = u
    intro hu
    split_ifs <;> simpa using hu
  | _ => simpa [Call.apply, setDebounce, setTimeout, setClickTimeout, setStepTimeout,
      setType, setDirection, setTickMode] using hs

theorem holdInv_run (h : Header) : ∀ (xs : List (Bool × Nat)) (s : GButton),
    HoldInv s → HoldInv (run h s xs) := by
  intro xs
  induction xs with
  | nil => intro s hs; exact hs
  | cons x xs ih =>
    intro s _
    rw [run_cons]
    exact ih _ (holdInv_tick h s x.1 x.2)

theorem tick_counter_law (h : Header) (s : GButton) (st : Bool) (now : Nat) :
    (tick h s st now).isHolded_f =
      holdOnset (tickRelease (tickPress h { s with btn_flag := st } st now) st now) now ∧
    (tick h s st now).btn_counter =
      (if (tick h s st now).isHolded_f = true ∨
          (tick h s st now)._click_timeout ≤ sub32 now (tick h s st now).btn_timer then 0
       else if s.btn_state = false ∧ (tick h s st now).btn_state = true then
         (s.btn_counter + 1) % h.counterMod
       else s.btn_counter) := by
  have f1 : (tick h s st now).isHolded_f =
      holdOnset (tickRelease (tickPress h { s with btn_flag := st } st now) st now) now := by
    simp [tick]
  have f2 : (tick h s st now).btn_counter =
      if (tick h s st now)._click_timeout ≤ sub32 now (tick h s st now).btn_timer then 0
      else if holdOnset (tickRelease (tickPress h { s with btn_flag := st } st now) st now) now
      then 0 else (tickPress h { s with btn_flag := st } st now).btn_counter := by
    simp [tick, gapElapsed]
  refine ⟨f1, ?_⟩
  rw [f2]
  simp only [f1, tick_btn_state]
  generalize holdOnset (tickRelease (tickPress h { s with btn_flag := st } st now) st now) now
    = o
  by_cases hg : (tick h s st now)._click_timeout ≤ sub32 now (tick h s st now).btn_timer <;>
    cases o <;>
    by_cases hd : s._debounce ≤ sub32 now s.btn_timer <;> by_cases h0 : s.btn_timer = 0 <;>
    cases st <;> cases hb : s.btn_state <;> simp [accepts, hg, hb, hd, h0]

theorem tick_onset_clears (h : Header) (s : GButton) (st : Bool) (now : Nat)
    (ho : (tick h s st now).isHolded_f = true) :
    (tick h s st now).hold_flag = true ∧ (tick h s st now).last_counter = 0 ∧
    (tick h s st now).counter_flag = false ∧ (tick h s st now).btn_counter = 0 := by
  revert ho
  simp only [tick]
  generalize tickRelease (tickPress h { s with btn_flag := st } st now) st now = w
  intro ho
  have ho2 : holdOnset w now = true := by simpa using ho
  have hb : w.btn_state = true := by
    cases hbs : w.btn_state
    · simp [holdOnset, hbs] at ho2
    · rfl
  simp [ho2, hb]

theorem clickedTimes_fields : ∀ n : Nat, n ≤ 255 →
    (clickedTimes n).btn_state = false ∧ (clickedTimes n).hold_flag = false ∧
    (clickedTimes n).btn_counter = n ∧ (clickedTimes n).btn_timer = 200 * n ∧
    (clickedTimes n)._debounce = 80 ∧ (clickedTimes n)._timeout = 300 ∧
    (clickedTimes n)._click_timeout = 500 := by
  intro n
  induction n with
  | zero => intro _; decide
  | succ n ih =>
    intro hn
    obtain ⟨i1, i2, i3, i4, i5, i6, i7⟩ := ih (by omega)
    have hacc : accepts (clickedTimes n) (200 * n + 100) = true := by
      have : sub32 (200 * n + 100) (200 * n) = 200 * n + 100 - 200 * n :=
        sub32_of_le _ _ (by omega) (by omega)
      simp only [accepts, i4, i5, this]
      simp
    obtain ⟨a1, a2, a3, a4⟩ := tick_press_click hdr (clickedTimes n) (200 * n + 100) i1 i2 hacc
      (by omega) (by omega)
    obtain ⟨c1, c2, c3, _⟩ := tick_config hdr (clickedTimes n) true (200 * n + 100)
    have hacc2 : accepts (tick hdr (clickedTimes n) true (200 * n + 100)) (200 * n + 200)
        = true := by
      have : sub32 (200 * n + 200) (200 * n + 100) = 200 * n + 200 - (200 * n + 100) :=
        sub32_of_le _ _ (by omega) (by omega)
      simp only [accepts, a3, c1, i5, this]
      simp
    obtain ⟨b1, b2, b3, b4⟩ := tick_release_click hdr _ (200 * n + 200) a1 a2 hacc2
      (by rw [c3, i7]; omega)
    obtain ⟨d1, d2, d3, _⟩ := tick_config hdr
      (tick hdr (clickedTimes n) true (200 * n + 100)) false (200 * n + 200)
    have hc : (n + 1) % hdr.counterMod = n + 1 := Nat.mod_eq_of_lt (by
      show n + 1 < 256
      omega)
    refine ⟨b1, b2, ?_, ?_, ?_, ?_, ?_⟩
    · show (tick hdr (tick hdr (clickedTimes n) true (200 * n + 100)) false
        (200 * n + 200)).btn_counter = n + 1
      rw [b4, a4, i3, hc]
    · show (tick hdr (tick hdr (clickedTimes n) true (200 * n + 100)) false
        (200 * n + 200)).btn_timer = 200 * (n + 1)
      rw [b3]; omega
    · exact d1.trans (c1.trans i5)
    · exact d2.trans (c2.trans i6)
    · exact d3.trans (c3.trans i7)

theorem tick_idle_fresh (h : Header) (s0 : GButton) (t : Nat) (hdir : s0.mode = true) :
    tick h (init h s0) false t = init h s0 := by
  cases s0 with
  | mk _ _ _ _ _ _ _ _ _ _ _ _ _ _ _ _ _ _ _ m _ _ =>
    simp only at hdir
    subst hdir
    by_cases hg : 500 ≤ sub32 t 0 <;>
      simp [tick, tickPress, tickRelease, tickHold, tickStep, tickHoldClear, tickClicks, init, hg]

theorem run_idle_fresh (h : Header) (s0 : GButton) (hdir : s0.mode = true) :
    ∀ quiet : List Nat, run h (init h s0) (idleSamples quiet) = init h s0 := by
  intro quiet
  induction quiet with
  | nil => rfl
  | cons t ts ih =>
    have hstep : run h (init h s0) (idleSamples (t :: ts)) =
        run h (tick h (init h s0) false t) (idleSamples ts) := rfl
    rw [hstep, tick_idle_fresh h s0 t hdir, ih]

/-! ## The claims -/

/-- C1 fails on the code. The run of the claim (manual mode, default timing, press at
0, release at 150, inactive sample at 650) closes the burst with `last_counter = 1`,
but the same `tick` lowers `counter_flag` (line 134), the flag that `isSingle` and
`getClicks` require: `isSingle` returns false and `getClicks` returns 0. -/
theorem single_click_not_reported :
    (manualButton true).tickMode = false ∧
    (tick hdr (manualButton true) true 0).btn_state = true ∧
    (tick hdr (tick hdr (manualButton true) true 0) false 150).btn_state = false ∧
    (run hdr (manualButton true) [(true, 0), (false, 150), (false, 650)]).last_counter = 1 ∧
    (run hdr (manualButton true) [(true, 0), (false, 150), (false, 650)]).counter_flag = false ∧
    (isSingle hdr (run hdr (manualButton true) [(true, 0), (false, 150), (false, 650)])
      false 650).1 = false ∧
    (getClicks hdr (run hdr (manualButton true) [(true, 0), (false, 150), (false, 650)])
      false 650).1 = 0 := by
  decide

/-- C2, as stated, fails when the first press comes too soon after the transition
that is recorded in `btn_timer`. The button was released at 90; with the default
timing the schedule press 100, release 200, press 350, release 450, sample at 950
meets every condition of the claim, but the press at 100 is rejected by the debounce
test (10 ms after 90), and the burst closes with `last_counter = 1`, not 2. -/
theorem burst_count_misses_bounced_press :
    releasedAt90.btn_state = false ∧ releasedAt90.btn_counter = 0 ∧
    releasedAt90.last_counter = 0 ∧ releasedAt90.hold_flag = false ∧
    releasedAt90._debounce = 80 ∧ releasedAt90._timeout = 300 ∧
    releasedAt90._click_timeout = 500 ∧ releasedAt90.btn_timer = 90 ∧
    (tick hdr (run hdr releasedAt90 (clickSamples [(100, 200), (350, 450)])) false
      950).last_counter = 1 ∧
    (tick hdr (run hdr releasedAt90 (clickSamples [(100, 200), (350, 450)])) false
      950).btn_counter = 0 := by
  decide

/-- C2, amended. N-click burst count: from a released state with `btn_counter = 0` and
hold inactive, with `_timeout > 0`, for every schedule of N ≥ 1 press and release
times (all 32-bit values) in which each sample comes at least `_debounce` and less
than `_click_timeout` after the one before, the first press passes the debounce test
against the `btn_timer` of the starting state, N is below the modulus of the counter's
type, and the closing inactive sample at `e` comes at least `_click_timeout` after
the last release: after the `tick` at `e`, `last_counter = N` and `btn_counter = 0`. -/
theorem burst_count (h : Header) (s : GButton) (cycles : List (Nat × Nat)) (e : Nat)
    (hb : s.btn_state = false) (hc : s.btn_counter = 0) (hh : s.hold_flag = false)
    (hT : 0 < s._timeout) (hN : cycles ≠ []) (hcm : cycles.length < h.counterMod)
    (hfirst : ∀ p ∈ (clickTimes cycles).head?,
      s._debounce ≤ sub32 p s.btn_timer ∨ s.btn_timer = 0)
    (hch : List.Chain' (fun a b => a + s._debounce ≤ b ∧ b < a + s._click_timeout)
      (clickTimes cycles))
    (hend : ∀ r ∈ (clickTimes cycles).getLast?, r + s._click_timeout ≤ e)
    (hlt : ∀ t ∈ clickTimes cycles, t < 4294967296) (he : e < 4294967296) :
    (tick h (run h s (clickSamples cycles)) false e).last_counter = cycles.length ∧
    (tick h (run h s (clickSamples cycles)) false e).btn_counter = 0 := by
  have hacc : ∀ p ∈ (clickTimes cycles).head?, accepts s p = true := by
    intro p hp
    have := hfirst p hp
    simpa [accepts] using this
  obtain ⟨e1, _, e3, e4, e5⟩ := run_clicks h cycles s hb hh hT hch hlt hacc (by omega)
  obtain ⟨r, hr⟩ := clickTimes_getLast cycles hN
  have hr1 := e5 r (by rw [hr]; rfl)
  have hr2 := hend r (by rw [hr]; rfl)
  have hlen : 0 < cycles.length := List.length_pos.mpr hN
  have hgap : (run h s (clickSamples cycles))._click_timeout ≤
      sub32 e (run h s (clickSamples cycles)).btn_timer := by
    rw [e4, hr1, sub32_of_le r e (by omega) he]
    omega
  have hres := tick_close_burst h (run h s (clickSamples cycles)) e e1 hgap (by omega)
  rw [e3, hc, Nat.zero_add] at hres
  exact hres

/-- C2 amended, at work, with the schedule of the claim on a fresh released button:
press 100, release 200, press 350, release 450, sample at 950 give `last_counter = 2`. -/
theorem burst_count_witness :
    (tick hdr (run hdr (manualButton true) (clickSamples [(100, 200), (350, 450)])) false
      950).last_counter = 2 ∧
    (tick hdr (run hdr (manualButton true) (clickSamples [(100, 200), (350, 450)])) false
      950).btn_counter = 0 :=
  burst_count hdr (manualButton true) [(100, 200), (350, 450)] 950 (by decide) (by decide)
    (by decide) (by decide) (by decide) (by decide) (by decide)
    (by simp [clickTimes, manualButton, construct, init, setTickMode])
    (by decide) (by decide) (by decide)

/-- C3. Debounce transition rule: one `tick(state)` changes `btn_state` exactly when
the sample differs from it and the 32-bit difference `now - btn_timer` has reached
`_debounce` or `btn_timer` is 0; a change makes `btn_state` the sample and `btn_timer`
the time `now`. -/
theorem tick_debounce_rule (h : Header) (s : GButton) (st : Bool) (now : Nat) :
    ((tick h s st now).btn_state ≠ s.btn_state ↔
      (st ≠ s.btn_state ∧ (sub32 now s.btn_timer ≥ s._debounce ∨ s.btn_timer = 0))) ∧
    ((tick h s st now).btn_state ≠ s.btn_state →
      (tick h s st now).btn_state = st ∧ (tick h s st now).btn_timer = now) ∧
    (¬ (st ≠ s.btn_state ∧ (sub32 now s.btn_timer ≥ s._debounce ∨ s.btn_timer = 0)) →
      (tick h s st now).btn_state = s.btn_state) := by
  refine ⟨?_, tick_timer_of_change h s st now, ?_⟩ <;>
  by_cases hd : s._debounce ≤ sub32 now s.btn_timer <;> by_cases h0 : s.btn_timer = 0 <;>
    cases st <;> cases hs : s.btn_state <;>
    simp [tick_btn_state, accepts, hs, hd, h0]

/-- The rule of C3 at work: the press at 0 on a fresh button is accepted. -/
theorem tick_debounce_rule_witness :
    (tick hdr (manualButton true) true 0).btn_state ≠ (manualButton true).btn_state ∧
    (tick hdr (manualButton true) true 0).btn_state = true ∧
    (tick hdr (manualButton true) true 0).btn_timer = 0 :=
  have hc : (tick hdr (manualButton true) true 0).btn_state ≠ (manualButton true).btn_state := by
    decide
  ⟨hc, (tick_debounce_rule hdr (manualButton true) true 0).2.1 hc⟩

/-- C4, as stated, fails when the accepted transition happens at counter value 0:
the press at 0 is accepted, and the release sample 10 ms later, inside the 80 ms
debounce window, is accepted as well, because `btn_timer == 0` passes the test. -/
theorem bounce_accepted_after_zero :
    (tick hdr (manualButton true) true 0).btn_state ≠ (manualButton true).btn_state ∧
    sub32 10 0 < (manualButton true)._debounce ∧
    (tick hdr (tick hdr (manualButton true) true 0) false 10).btn_state ≠
      (tick hdr (manualButton true) true 0).btn_state := by
  decide

/-- C4, amended. Bounce rejection: if the `tick` at counter value `t ≠ 0` changed
`btn_state`, the next `tick` at a time `t'` less than `_debounce` later (32-bit
difference) leaves `btn_state` as it is, whatever its sample. -/
theorem bounce_rejected (h : Header) (s : GButton) (st st' : Bool) (t t' : Nat)
    (ht : t ≠ 0) (hacc : (tick h s st t).btn_state ≠ s.btn_state)
    (hwin : sub32 t' t < s._debounce) :
    (tick h (tick h s st t) st' t').btn_state = (tick h s st t).btn_state := by
  have h1 := (tick_timer_of_change h s st t hacc).2
  have h2 := (tick_config h s st t).1
  have hd : ¬ (tick h s st t)._debounce ≤ sub32 t' (tick h s st t).btn_timer := by
    rw [h1, h2]; omega
  have h0 : ¬ (tick h s st t).btn_timer = 0 := by rw [h1]; exact ht
  rw [tick_btn_state h (tick h s st t) st' t']
  cases st' <;> cases (tick h s st t).btn_state <;> simp [accepts, hd, h0]

/-- C4 amended, at work: a press accepted at 1000 and a release sample at 1010. -/
theorem bounce_rejected_witness :
    (tick hdr (manualButton true) true 1000).btn_state ≠ (manualButton true).btn_state ∧
    (tick hdr (tick hdr (manualButton true) true 1000) false 1010).btn_state =
      (tick hdr (manualButton true) true 1000).btn_state :=
  ⟨by decide,
   bounce_rejected hdr (manualButton true) true false 1000 1010 (by decide) (by decide)
     (by decide)⟩

/-- C5, as stated, fails for the direction flag 0: `init` then sets `btn_state = !mode`,
that is pressed, so the first active sample (here at 100) is no press edge: nothing
is raised or counted and `btn_timer` stays 0. -/
theorem first_press_lost_when_dir_false :
    (manualButton false).btn_timer = 0 ∧ (manualButton false).btn_state = true ∧
    (tick hdr (manualButton false) true 100).isPress_f = false ∧
    (tick hdr (manualButton false) true 100).btn_counter = 0 ∧
    (tick hdr (manualButton false) true 100).btn_timer = 0 := by
  decide

/-- C5, amended. On an object fresh from `init` with the direction flag set (so that
`init` leaves `btn_state` false), `tick`s with an inactive sample, at any times, leave
the object as `init` made it, and the first `tick` with an active sample accepts the
press at any time `now`: `btn_state` and `isPress_f` are true, `btn_counter` is 1
and `btn_timer` is `now`. The counter's type is assumed to hold the value 1. -/
theorem first_press_accepted (h : Header) (s0 : GButton) (quiet : List Nat) (now : Nat)
    (hdir : s0.mode = true) (hcm : 1 < h.counterMod) :
    run h (init h s0) (idleSamples quiet) = init h s0 ∧
    (init h s0).btn_state = false ∧ (init h s0).btn_timer = 0 ∧
    (tick h (run h (init h s0) (idleSamples quiet)) true now).btn_state = true ∧
    (tick h (run h (init h s0) (idleSamples quiet)) true now).isPress_f = true ∧
    (tick h (run h (init h s0) (idleSamples quiet)) true now).btn_counter = 1 ∧
    (tick h (run h (init h s0) (idleSamples quiet)) true now).btn_timer = now := by
  have h1 : 1 % h.counterMod = 1 := Nat.mod_eq_of_lt hcm
  rw [run_idle_fresh h s0 hdir quiet]
  simp [tick, init, accepts, stepDue, holdOnset, gapElapsed, hdir, sub32_self, h1]

/-- C5 amended, at work: a button built with direction flag 1, inactive samples at 10,
700 and 5000, first active sample at 12345. -/
theorem first_press_accepted_witness :
    run hdr (construct hdr zeroed 3 false true) (idleSamples [10, 700, 5000]) =
      construct hdr zeroed 3 false true ∧
    (tick hdr (run hdr (construct hdr zeroed 3 false true) (idleSamples [10, 700, 5000]))
      true 12345).btn_state = true ∧
    (tick hdr (run hdr (construct hdr zeroed 3 false true) (idleSamples [10, 700, 5000]))
      true 12345).isPress_f = true ∧
    (tick hdr (run hdr (construct hdr zeroed 3 false true) (idleSamples [10, 700, 5000]))
      true 12345).btn_counter = 1 ∧
    (tick hdr (run hdr (construct hdr zeroed 3 false true) (idleSamples [10, 700, 5000]))
      true 12345).btn_timer = 12345 :=
  have hw := first_press_accepted hdr { zeroed with _PIN := 3 % 256, type := false, mode := true }
    [10, 700, 5000] 12345 (by decide) (by decide)
  ⟨hw.1, hw.2.2.2⟩

/-- C6 fails on the code. With the default timing a press accepted at 1000 and an
active sample at 1300 give hold onset (`hold_flag` and `isHolded_f` are raised), but
`step_flag` is false after that `tick` and `isStep` returns false: the step branch
(line 122) lowers the flag that hold onset (line 110) has just raised, because
300 ms is less than the step timeout of 400 ms. -/
theorem step_not_raised_at_hold_onset :
    (tick hdr (manualButton true) true 1000).btn_state = true ∧
    (tick hdr (manualButton true) true 1000).hold_flag = false ∧
    holdOnset (tickRelease (tickPress hdr (tick hdr (manualButton true) true 1000) true 1300)
      true 1300) 1300 = true ∧
    (tick hdr (tick hdr (manualButton true) true 1000) true 1300).hold_flag = true ∧
    (tick hdr (tick hdr (manualButton true) true 1000) true 1300).isHolded_f = true ∧
    (tick hdr (tick hdr (manualButton true) true 1000) true 1300).step_flag = false ∧
    (isStep hdr (tick hdr (tick hdr (manualButton true) true 1000) true 1300) false
      1300).1 = false := by
  decide

/-- C7, as stated, fails for `_timeout = 0`: the hold then starts in the `tick` that
accepts the press (here at 1000), and the first further `tick`, 50 ms later, although
it is the first with an elapsed time of at least `_timeout`, finds the hold active
and leaves `isHolded_f` false. -/
theorem hold_start_in_accepting_tick :
    (setTimeout (manualButton true) 0)._timeout = 0 ∧
    (setTimeout (manualButton true) 0).btn_state = false ∧
    (tick hdr (setTimeout (manualButton true) 0) true 1000).btn_state = true ∧
    (tick hdr (setTimeout (manualButton true) 0) true 1000).isHolded_f = true ∧
    (run hdr (tick hdr (setTimeout (manualButton true) 0) true 1000)
      (heldSamples 1000 [50])).isHolded_f = false ∧
    (run hdr (tick hdr (setTimeout (manualButton true) 0) true 1000)
      (heldSamples 1000 [50])).hold_flag = true := by
  decide

/-- C7, amended. Hold start is reported exactly once per hold, for `_timeout > 0`:
from a released state with hold inactive, after a `tick` that accepts a press at
counter value `t0` and any further `tick`s with an active sample at elapsed times
`pre`, then `d` (each below 2^32, taken modulo 2^32 for the counter), `isHolded_f` is
true after the last of them exactly when `d` is the first elapsed time that reaches
`_timeout`; `hold_flag` is true exactly when some elapsed time so far has reached it;
so after every later `tick` `isHolded_f` is false and the hold stays active. -/
theorem hold_started_once (h : Header) (s : GButton) (t0 d : Nat) (pre : List Nat)
    (hb : s.btn_state = false) (hh : s.hold_flag = false)
    (ha : (tick h s true t0).btn_state = true) (hT : 0 < s._timeout)
    (hpre : ∀ x ∈ pre, x < 4294967296) (hd : d < 4294967296) :
    ((run h (tick h s true t0) (heldSamples t0 (pre ++ [d]))).isHolded_f = true ↔
      (s._timeout ≤ d ∧ ∀ x ∈ pre, x < s._timeout)) ∧
    ((run h (tick h s true t0) (heldSamples t0 (pre ++ [d]))).hold_flag = true ↔
      (s._timeout ≤ d ∨ ∃ x ∈ pre, s._timeout ≤ x)) ∧
    ((∃ x ∈ pre, s._timeout ≤ x) →
      (run h (tick h s true t0) (heldSamples t0 (pre ++ [d]))).isHolded_f = false ∧
      (run h (tick h s true t0) (heldSamples t0 (pre ++ [d]))).hold_flag = true) := by
  have hacc : accepts s t0 = true := by
    rw [tick_btn_state, hb] at ha
    simpa using ha
  have hC : (tick h s true t0)._timeout = s._timeout := (tick_config h s true t0).2.1
  have hT' : s._timeout ≠ 0 := by omega
  have hpress : (tick h s true t0).hold_flag = false ∧ (tick h s true t0).btn_timer = t0 := by
    revert hacc
    by_cases hd : s._debounce ≤ sub32 t0 s.btn_timer <;> by_cases h0 : s.btn_timer = 0 <;>
      simp [tick, accepts, stepDue, holdOnset, gapElapsed, hb, hh, hd, h0, sub32_self, hT']
  obtain ⟨p2, p3⟩ := hpress
  generalize tick h s true t0 = u at *
  obtain ⟨r1, r2, r3, r4⟩ := run_before_hold h t0 pre u ha p2 p3 hpre
  have hsplit : run h u (heldSamples t0 (pre ++ [d])) =
      tick h (run h u (heldSamples t0 pre)) true ((t0 + d) % 4294967296) := by
    simp [heldSamples, run_append_one]
  rw [hsplit]
  rw [hC] at r1 r3 r4
  by_cases hall : ∀ x ∈ pre, x < s._timeout
  · obtain ⟨q1, q2⟩ := r3 hall
    have hno : ¬ ∃ x ∈ pre, s._timeout ≤ x := by
      rintro ⟨x, hx, hxT⟩
      have := hall x hx
      omega
    by_cases hlt : d < s._timeout
    · obtain ⟨a1, a2, a3, a4⟩ := tick_before_hold h _ t0 d hd r2 q1 q2 (by rw [r1]; exact hlt)
      simp [a2, a4, hno]
      omega
    · obtain ⟨a1, a2, a3⟩ := tick_hold_starts h _ t0 d hd r2 q1 q2 (by rw [r1]; omega)
      simp only [a2, a3, true_iff]
      exact ⟨⟨by omega, hall⟩, Or.inl (by omega), fun hx => absurd hx hno⟩
  · have hex : ∃ x ∈ pre, s._timeout ≤ x := by
      push_neg at hall
      exact hall
    obtain ⟨a1, a2, a3⟩ := tick_while_held h _ ((t0 + d) % 4294967296) r2 (r4 hex)
    simp [a2, a3, hex, hall]

/-- C7 amended, at work with the default timing: a press at 1000 and active samples
100, 200, 300, 350 and 800 ms later; the hold is reported after the third only. -/
theorem hold_started_once_witness :
    ((run hdr (tick hdr (manualButton true) true 1000)
      (heldSamples 1000 ([100, 200] ++ [300]))).isHolded_f = true ↔
      ((manualButton true)._timeout ≤ 300 ∧ ∀ x ∈ [100, 200], x < (manualButton true)._timeout)) ∧
    (run hdr (tick hdr (manualButton true) true 1000)
      (heldSamples 1000 ([100, 200] ++ [300]))).isHolded_f = true ∧
    (run hdr (tick hdr (manualButton true) true 1000)
      (heldSamples 1000 ([100, 200, 300, 350] ++ [800]))).isHolded_f = false ∧
    (run hdr (tick hdr (manualButton true) true 1000)
      (heldSamples 1000 ([100, 200, 300, 350] ++ [800]))).hold_flag = true :=
  ⟨(hold_started_once hdr (manualButton true) 1000 300 [100, 200] (by decide) (by decide)
      (by decide) (by decide) (by decide) (by decide)).1,
   by decide,
   (hold_started_once hdr (manualButton true) 1000 800 [100, 200, 300, 350] (by decide)
      (by decide) (by decide) (by decide) (by decide) (by decide)).2.2
      ⟨300, by decide, by decide⟩⟩

/-- C8. The step flag is a pulse and is never raised while released: (a) if
`btn_state` is false after a `tick`, so is `step_flag`; (b) if a `tick` at time `t`
leaves `step_flag` true, the next `tick` at a time `t'` less than `_step_timeout`
later (32-bit difference) leaves it false. -/
theorem step_is_pulse (h : Header) (s : GButton) (st st' : Bool) (t t' : Nat) :
    ((tick h s st t).btn_state = false → (tick h s st t).step_flag = false) ∧
    ((tick h s st t).step_flag = true → sub32 t' t < s._step_timeout →
      (tick h (tick h s st t) st' t').step_flag = false) := by
  constructor
  · by_cases hd : s._debounce ≤ sub32 t s.btn_timer <;> by_cases h0 : s.btn_timer = 0 <;>
      cases st <;> cases hs : s.btn_state <;>
      simp [tick, accepts, stepDue, holdOnset, gapElapsed, hs, hd, h0, sub32_self]
  · intro h1 h2
    obtain ⟨ht, hh, hs⟩ := tick_step_raised h s st t h1
    have hcfg := (tick_config h s st t).2.2.2
    generalize tick h s st t = u at *
    have hlt : ¬ u._step_timeout ≤ sub32 t' u.btn_timer := by rw [ht, hcfg]; omega
    by_cases hd : u._debounce ≤ sub32 t' u.btn_timer <;> by_cases h0 : u.btn_timer = 0 <;>
      cases st' <;>
      simp [tick, accepts, stepDue, holdOnset, gapElapsed, hs, hd, h0, hh, hlt] <;>
      (rw [h0] at hlt; exact not_le.mp hlt)

/-- C8 at work: (a) a release accepted at 150 leaves the step flag false; (b) a held
button raises the step flag at 1400 and the next `tick`, 100 ms later, lowers it. -/
theorem step_is_pulse_witness :
    ((tick hdr (tick hdr (manualButton true) true 0) false 150).btn_state = false ∧
      (tick hdr (tick hdr (manualButton true) true 0) false 150).step_flag = false) ∧
    ((tick hdr holdingButton true 1400).step_flag = true ∧
      (tick hdr (tick hdr holdingButton true 1400) true 1500).step_flag = false) :=
  ⟨⟨by decide,
    (step_is_pulse hdr (tick hdr (manualButton true) true 0) false false 150 0).1 (by decide)⟩,
   ⟨by decide,
    (step_is_pulse hdr holdingButton true true 1400 1500).2 (by decide) (by decide)⟩⟩

/-- C9. Hold implies pressed: after every `tick`, from any state, `hold_flag` true
implies `btn_state` true; a `tick` that accepts a release leaves `hold_flag` false;
and after any sequence of calls of the members (setters, both `tick`s, accessors,
`init`) on an object fresh from `init`, `hold_flag` true implies `btn_state` true. -/
theorem hold_implies_pressed (h : Header) (s s0 : GButton) (st : Bool) (now : Nat)
    (cs : List Call) :
    ((tick h s st now).hold_flag = true → (tick h s st now).btn_state = true) ∧
    (s.btn_state = true → (tick h s st now).btn_state = false →
      (tick h s st now).hold_flag = false) ∧
    ((calls h (init h s0) cs).hold_flag = true → (calls h (init h s0) cs).btn_state = true) := by
  refine ⟨tick_hold_pressed h s st now, ?_, holdInv_calls h cs (init h s0) (holdInv_init h s0)⟩
  intro _ hr
  have := tick_hold_pressed h s st now
  cases hh : (tick h s st now).hold_flag
  · rfl
  · rw [this hh] at hr
    cases hr

/-- C9 at work: the hold of `holdingButton` is an active hold of a pressed button, reached
from `init` by calls of the members, and the release at 1500 ends it. -/
theorem hold_implies_pressed_witness :
    (tick hdr (tick hdr (manualButton true) true 1000) true 1300).hold_flag = true ∧
    (tick hdr (tick hdr (manualButton true) true 1000) true 1300).btn_state = true ∧
    (tick hdr holdingButton false 1500).hold_flag = false ∧
    (calls hdr (init hdr { zeroed with mode := true })
      [Call.setTickMode false, Call.tick true 1000, Call.isPress, Call.tick true 1300,
       Call.isHolded false 1300]).hold_flag = true ∧
    (calls hdr (init hdr { zeroed with mode := true })
      [Call.setTickMode false, Call.tick true 1000, Call.isPress, Call.tick true 1300,
       Call.isHolded false 1300]).btn_state = true :=
  ⟨by decide,
   (hold_implies_pressed hdr (tick hdr (manualButton true) true 1000) zeroed true 1300 []).1
     (by decide),
   (hold_implies_pressed hdr holdingButton zeroed false 1500 []).2.1 (by decide) (by decide),
   by decide,
   (hold_implies_pressed hdr zeroed { zeroed with mode := true } true 0
     [Call.setTickMode false, Call.tick true 1000, Call.isPress, Call.tick true 1300,
      Call.isHolded false 1300]).2.2 (by decide)⟩

/-- C10 fails on the code for `isPress` and `isRelease`, which never call `tick()`.
On a fresh button in automatic tick mode whose pin reads the active level at time 0,
`isPress` returns false and leaves the object untouched, while one `tick()` followed
by the manual-mode evaluation returns true; `isClick`, like the other ten accessors,
does perform the `tick()`. -/
theorem isPress_skips_auto_tick :
    (setTickMode (manualButton true) true).tickMode = true ∧
    isPress (setTickMode (manualButton true) true) =
      (false, setTickMode (manualButton true) true) ∧
    (isPress (tickPin hdr (setTickMode (manualButton true) true) false 0)).1 = true ∧
    (isClick hdr (setTickMode (manualButton true) true) false 0).2 =
      tickPin hdr (setTickMode (manualButton true) true) false 0 ∧
    isRelease (setTickMode (tick hdr (manualButton true) true 0) true) =
      (false, setTickMode (tick hdr (manualButton true) true 0) true) ∧
    (isRelease (tickPin hdr (setTickMode (tick hdr (manualButton true) true 0) true)
      true 150)).1 = true := by
  decide

/-- C11 fails on the code for `isHold`, whose body is that of `state`: it returns
`btn_state`, not `hold_flag`. On a button pressed at 1000 and sampled again at 1100
the hold is not active (`hold_flag` is false), yet `isHold` returns true in manual
mode. Both accessors leave the object unchanged, and `state` does return the pressed
level. -/
theorem isHold_reports_pressed_level :
    (run hdr (manualButton true) [(true, 1000), (true, 1100)]).tickMode = false ∧
    (run hdr (manualButton true) [(true, 1000), (true, 1100)]).hold_flag = false ∧
    (run hdr (manualButton true) [(true, 1000), (true, 1100)]).btn_state = true ∧
    isHold hdr (run hdr (manualButton true) [(true, 1000), (true, 1100)]) false 1100 =
      (true, run hdr (manualButton true) [(true, 1000), (true, 1100)]) ∧
    state hdr (run hdr (manualButton true) [(true, 1000), (true, 1100)]) false 1100 =
      (true, run hdr (manualButton true) [(true, 1000), (true, 1100)]) := by
  decide

/-- C12. Edge events are one-shot: `isPress` returns `isPress_f` and a second call
returns false; likewise `isRelease` with `isRelease_f` and, in manual mode, `isHolded`
with `isHolded_f`; the object after the call differs from the one before at most in
that flag, which is false. -/
theorem edge_events_one_shot (h : Header) (s : GButton) (pin pin2 : Bool) (now now2 : Nat) :
    ((isPress s).1 = s.isPress_f ∧ (isPress (isPress s).2).1 = false ∧
      (isPress s).2 = { s with isPress_f := false }) ∧
    ((isRelease s).1 = s.isRelease_f ∧ (isRelease (isRelease s).2).1 = false ∧
      (isRelease s).2 = { s with isRelease_f := false }) ∧
    (s.tickMode = false →
      (isHolded h s pin now).1 = s.isHolded_f ∧
      (isHolded h (isHolded h s pin now).2 pin2 now2).1 = false ∧
      (isHolded h s pin now).2 = { s with isHolded_f := false }) := by
  refine ⟨?_, ?_, ?_⟩
  · cases s with
    | mk _ _ _ _ _ _ _ _ _ _ _ _ _ _ f _ _ _ _ _ _ _ => cases f <;> simp [isPress]
  · cases s with
    | mk _ _ _ _ _ _ _ _ _ _ _ _ _ f _ _ _ _ _ _ _ _ => cases f <;> simp [isRelease]
  · intro hm
    cases s with
    | mk _ _ _ _ _ _ _ _ _ _ _ _ f _ _ _ _ _ _ _ _ m =>
      simp only at hm
      subst hm
      cases f <;> simp [isHolded]

/-- C12 at work: after the hold onset of `holdingButton`, `isHolded` returns true once. -/
theorem edge_events_one_shot_witness :
    (isHolded hdr holdingButton false 1300).1 = true ∧
    (isHolded hdr (isHolded hdr holdingButton false 1300).2 false 1300).1 = false :=
  have hw := (edge_events_one_shot hdr holdingButton false false 1300 1300).2.2 (by decide)
  ⟨hw.1.trans (by decide), hw.2.1⟩

/-- C13. Click-burst accessors in manual mode: `isSingle`, `isDouble`, `isTriple`
return true exactly when `counter_flag` is set and `last_counter` is 1, 2, 3, and then
clear the flag and `last_counter`; `getClicks` returns `last_counter` (as the `uint8_t`
it is passed through, which is the count itself when that fits 8 bits) when the flag
is set, clearing both, and 0 otherwise; `hasClicks` returns the flag and clears only
it. When the condition is false the object is unchanged, and in every case only these
two fields change. -/
theorem burst_accessors_consume (h : Header) (s : GButton) (pin : Bool) (now : Nat)
    (hm : s.tickMode = false) :
    (isSingle h s pin now = if s.counter_flag = true ∧ s.last_counter = 1 then
        (true, { s with counter_flag := false, last_counter := 0 }) else (false, s)) ∧
    (isDouble h s pin now = if s.counter_flag = true ∧ s.last_counter = 2 then
        (true, { s with counter_flag := false, last_counter := 0 }) else (false, s)) ∧
    (isTriple h s pin now = if s.counter_flag = true ∧ s.last_counter = 3 then
        (true, { s with counter_flag := false, last_counter := 0 }) else (false, s)) ∧
    (s.last_counter < 256 →
      getClicks h s pin now = if s.counter_flag = true then
        (s.last_counter, { s with counter_flag := false, last_counter := 0 }) else (0, s)) ∧
    (hasClicks h s pin now = (s.counter_flag, { s with counter_flag := false })) := by
  cases s with
  | mk _ _ _ _ _ _ lc _ _ _ _ cf _ _ _ _ _ _ _ _ _ m =>
    simp only at hm
    subst hm
    refine ⟨?_, ?_, ?_, ?_, ?_⟩
    · cases cf <;> simp [isSingle]
    · cases cf <;> simp [isDouble]
    · cases cf <;> simp [isTriple]
    · intro hfit
      simp only at hfit
      cases cf <;> simp [getClicks, Nat.mod_eq_of_lt hfit]
    · cases cf <;> simp [hasClicks]

/-- C13 at work: a pending burst of two is consumed by `getClicks`, which returns 2. -/
theorem burst_accessors_consume_witness :
    getClicks hdr { manualButton true with counter_flag := true, last_counter := 2 } false 0 =
      (2, manualButton true) :=
  ((burst_accessors_consume hdr
    { manualButton true with counter_flag := true, last_counter := 2 } false 0 (by decide)).2.2.2.1
    (by decide)).trans (by decide)

/-- C15. A release at or after the hold boundary suppresses hold onset: from every
state with `btn_state` true, a `tick` with an inactive sample whose release is
accepted leaves `hold_flag` and `isHolded_f` false, whatever `now - btn_timer` was. -/
theorem release_suppresses_hold (h : Header) (s : GButton) (now : Nat)
    (hb : s.btn_state = true) (hr : (tick h s false now).btn_state = false) :
    (tick h s false now).hold_flag = false ∧ (tick h s false now).isHolded_f = false := by
  revert hr
  by_cases hd : s._debounce ≤ sub32 now s.btn_timer <;> by_cases h0 : s.btn_timer = 0 <;>
    simp [tick, accepts, stepDue, holdOnset, gapElapsed, hb, hd, h0]

/-- C15 at work with the default timing: pressed at 1000, inactive sample 320 ms
later, past the hold threshold of 300. -/
theorem release_suppresses_hold_witness :
    (tick hdr (manualButton true) true 1000).hold_flag = false ∧
    300 ≤ sub32 1320 (tick hdr (manualButton true) true 1000).btn_timer ∧
    (tick hdr (tick hdr (manualButton true) true 1000) false 1320).hold_flag = false ∧
    (tick hdr (tick hdr (manualButton true) true 1000) false 1320).isHolded_f = false :=
  ⟨by decide, by decide,
   release_suppresses_hold hdr (tick hdr (manualButton true) true 1000) 1320 (by decide)
     (by decide)⟩

/-- C16, as stated, fails where the counter wraps: the 256th quick click on a button
with 8-bit counters. After 255 clicks `btn_counter` is 255; the next press at 51100 is
accepted, without hold onset and without the click gap elapsed, and leaves
`btn_counter = 0`, not 256. The same happens for every counter type with a positive
modulus at its largest value. -/
theorem click_count_wraps :
    ((clickedTimes 255).btn_state = false ∧ (clickedTimes 255).btn_counter = 255 ∧
      (tick hdr (clickedTimes 255) true 51100).btn_state = true ∧
      (tick hdr (clickedTimes 255) true 51100).isHolded_f = false ∧
      ¬ ((tick hdr (clickedTimes 255) true 51100)._click_timeout ≤
        sub32 51100 (tick hdr (clickedTimes 255) true 51100).btn_timer) ∧
      (tick hdr (clickedTimes 255) true 51100).btn_counter = 0) ∧
    ¬ ∃ h : Header, 0 < h.counterMod ∧ ∀ (s : GButton) (st : Bool) (now : Nat),
      (tick h s st now).btn_counter =
        (if (tick h s st now).isHolded_f = true ∨
            (tick h s st now)._click_timeout ≤ sub32 now (tick h s st now).btn_timer then 0
         else if s.btn_state = false ∧ (tick h s st now).btn_state = true then
           s.btn_counter + 1
         else s.btn_counter) := by
  have key : ∀ (h : Header) (s : GButton) (p : Nat), s.btn_state = false →
      s.hold_flag = false → accepts s p = true → 0 < s._timeout → 0 < s._click_timeout →
      (tick h s true p).btn_state = true ∧ (tick h s true p).isHolded_f = false ∧
      ¬ ((tick h s true p)._click_timeout ≤ sub32 p (tick h s true p).btn_timer) ∧
      (tick h s true p).btn_counter = (s.btn_counter + 1) % h.counterMod := by
    intro h s p hb hh ha hT hC
    obtain ⟨a1, a2, a3, a4⟩ := tick_press_click h s p hb hh ha hT hC
    refine ⟨a1, ?_, ?_, a4⟩
    · cases hf : (tick h s true p).isHolded_f
      · rfl
      · rw [(tick_onset_clears h s true p hf).1] at a2
        cases a2
    · rw [a3, sub32_self, (tick_config h s true p).2.2.1]
      omega
  constructor
  · obtain ⟨i1, i2, i3, i4, i5, i6, i7⟩ := clickedTimes_fields 255 (by omega)
    have hacc : accepts (clickedTimes 255) 51100 = true := by
      have hsub : sub32 51100 (200 * 255) = 100 := by
        unfold sub32
        omega
      unfold accepts
      rw [i4, i5, hsub]
      decide
    obtain ⟨k1, k2, k3, k4⟩ := key hdr (clickedTimes 255) 51100 i1 i2 hacc (by omega) (by omega)
    refine ⟨i1, i3, k1, k2, k3, ?_⟩
    rw [k4, i3]
    rfl
  · rintro ⟨h, hpos, H⟩
    have hs := H { manualButton true with btn_counter := h.counterMod - 1 } true 1000
    obtain ⟨k1, k2, k3, k4⟩ := key h { manualButton true with btn_counter := h.counterMod - 1 }
      1000 rfl rfl (by simp [accepts, manualButton, construct, init, setTickMode])
      (by simp [manualButton, construct, init, setTickMode])
      (by simp [manualButton, construct, init, setTickMode])
    rw [if_neg (by rw [k2]; simpa using k3), if_pos ⟨rfl, k1⟩, k4] at hs
    have h1 : h.counterMod - 1 + 1 = h.counterMod := by omega
    simp only [h1, Nat.mod_self] at hs
    omega

/-- C16, amended. The `btn_counter` update law: after a `tick` the counter is 0 if the
`tick` performed hold onset or if the click-gap condition holds for the `btn_timer` the
earlier steps left; otherwise it is the old counter plus one, reduced modulo the
modulus of the counter's type, if the `tick` accepted a press, and the old counter if
not. Hold onset also leaves `last_counter = 0` and `counter_flag` false, and in every
state reached from `init` by member calls a press is accepted only while hold is
inactive. -/
theorem click_count_law (h : Header) (s s0 : GButton) (st : Bool) (now : Nat)
    (cs : List Call) :
    (tick h s st now).isHolded_f =
      holdOnset (tickRelease (tickPress h { s with btn_flag := st } st now) st now) now ∧
    (tick h s st now).btn_counter =
      (if (tick h s st now).isHolded_f = true ∨
          (tick h s st now)._click_timeout ≤ sub32 now (tick h s st now).btn_timer then 0
       else if s.btn_state = false ∧ (tick h s st now).btn_state = true then
         (s.btn_counter + 1) % h.counterMod
       else s.btn_counter) ∧
    ((tick h s st now).isHolded_f = true →
      (tick h s st now).last_counter = 0 ∧ (tick h s st now).counter_flag = false) ∧
    ((calls h (init h s0) cs).btn_state = false →
      (tick h (calls h (init h s0) cs) st now).btn_state = true →
      (calls h (init h s0) cs).hold_flag = false) := by
  obtain ⟨f1, f2⟩ := tick_counter_law h s st now
  refine ⟨f1, f2, fun ho => ?_, fun hb _ => ?_⟩
  · obtain ⟨_, o2, o3, _⟩ := tick_onset_clears h s st now ho
    exact ⟨o2, o3⟩
  · have hinv := holdInv_calls h cs (init h s0) (holdInv_init h s0)
    cases hf : (calls h (init h s0) cs).hold_flag
    · rfl
    · rw [hinv hf] at hb
      cases hb

/-- C16 amended, at work: the hold onset of `holdingButton` clears the click tracking,
and the press accepted on the fresh button counted from 0 to 1. -/
theorem click_count_law_witness :
    (tick hdr (tick hdr (manualButton true) true 1000) true 1300).isHolded_f = true ∧
    (tick hdr (tick hdr (manualButton true) true 1000) true 1300).last_counter = 0 ∧
    (tick hdr (tick hdr (manualButton true) true 1000) true 1300).counter_flag = false ∧
    (tick hdr (manualButton true) true 1000).btn_counter = 1 ∧
    (calls hdr (init hdr { zeroed with mode := true }) [Call.setTickMode false]).hold_flag
      = false :=
  have hw := (click_count_law hdr (tick hdr (manualButton true) true 1000) zeroed true 1300
    []).2.2.1 (by decide)
  ⟨by decide, hw.1, hw.2,
   (click_count_law hdr (manualButton true) zeroed true 1000 []).2.1.trans (by decide),
   (click_count_law hdr zeroed { zeroed with mode := true } true 1000
     [Call.setTickMode false]).2.2.2 (by decide) (by decide)⟩

/-- C17. Finalizing a burst lowers the pending flag: whenever the click-gap condition
of lines 129-135 holds in a `tick` (`now - btn_timer >= _click_timeout` with the
`btn_timer` the earlier steps left), `counter_flag` is false after it, so in manual
mode `isSingle`, `isDouble`, `isTriple` and `hasClicks` called right after return
false and `getClicks` returns 0, whatever `last_counter` holds. -/
theorem finalize_lowers_flag (h : Header) (s : GButton) (st pin : Bool) (now now2 : Nat)
    (hgap : (tick h s st now)._click_timeout ≤ sub32 now (tick h s st now).btn_timer) :
    (tick h s st now).counter_flag = false ∧
    (s.tickMode = false →
      (isSingle h (tick h s st now) pin now2).1 = false ∧
      (isDouble h (tick h s st now) pin now2).1 = false ∧
      (isTriple h (tick h s st now) pin now2).1 = false ∧
      (hasClicks h (tick h s st now) pin now2).1 = false ∧
      (getClicks h (tick h s st now) pin now2).1 = 0) := by
  have hf : (tick h s st now).counter_flag = false := by
    revert hgap
    simp only [tick]
    generalize tickHoldClear (tickStep (tickHold (tickRelease
      (tickPress h { s with btn_flag := st } st now) st now) now) now) = w
    intro hgap
    simp only [tickClicks_fields] at hgap
    simp [gapElapsed, hgap]
  have hm : (tick h s st now).tickMode = s.tickMode := by simp [tick]
  refine ⟨hf, fun hman => ?_⟩
  rw [hman] at hm
  generalize tick h s st now = u at *
  simp [isSingle, isDouble, isTriple, hasClicks, getClicks, hf, hm]

/-- C17 at work on the run of C1: the `tick` at 650 finalizes the burst. -/
theorem finalize_lowers_flag_witness :
    (tick hdr (run hdr (manualButton true) [(true, 0), (false, 150)]) false 650).last_counter
      = 1 ∧
    (tick hdr (run hdr (manualButton true) [(true, 0), (false, 150)]) false 650).counter_flag
      = false ∧
    (isSingle hdr (tick hdr (run hdr (manualButton true) [(true, 0), (false, 150)]) false 650)
      false 650).1 = false :=
  have hw := finalize_lowers_flag hdr (run hdr (manualButton true) [(true, 0), (false, 150)])
    false false 650 650 (by decide)
  ⟨by decide, hw.1, (hw.2 (by decide)).1⟩

/-- C18. A press edge lives for one `tick`: from every state with `btn_state` true the
`tick` leaves `isPress_f` false; a `tick` that accepts a press raises `isPress_f` and
leaves `btn_state` true, so the very next `tick` lowers it and `isPress` then returns
false. -/
theorem press_edge_one_tick (h : Header) (s : GButton) (st st2 : Bool) (now now2 : Nat) :
    (s.btn_state = true → (tick h s st now).isPress_f = false) ∧
    (s.btn_state = false → (tick h s st now).btn_state = true →
      (tick h s st now).isPress_f = true ∧
      (tick h (tick h s st now) st2 now2).isPress_f = false ∧
      (isPress (tick h (tick h s st now) st2 now2)).1 = false) := by
  have key : ∀ (u : GButton) (b : Bool) (t : Nat), u.btn_state = true →
      (tick h u b t).isPress_f = false := by
    intro u b t hu
    simp [tick, hu]
  refine ⟨key s st now, fun hb hacc => ?_⟩
  have h2 := key (tick h s st now) st2 now2 hacc
  refine ⟨?_, h2, ?_⟩
  · revert hacc
    by_cases hd : s._debounce ≤ sub32 now s.btn_timer <;> by_cases h0 : s.btn_timer = 0 <;>
      cases st <;> simp [tick, accepts, hb, hd, h0]
  · simp [isPress, h2]

/-- C18 at work: the press at 1000 raises the edge and the `tick` at 1010 lowers it. -/
theorem press_edge_one_tick_witness :
    (tick hdr (manualButton true) true 1000).isPress_f = true ∧
    (tick hdr (tick hdr (manualButton true) true 1000) true 1010).isPress_f = false ∧
    (isPress (tick hdr (tick hdr (manualButton true) true 1000) true 1010)).1 = false :=
  have hw := (press_edge_one_tick hdr (manualButton true) true true 1000 1010).2 (by decide)
    (by decide)
  ⟨hw.1,
   (press_edge_one_tick hdr (tick hdr (manualButton true) true 1000) true true 1010 0).1
     (by decide),
   hw.2.2⟩

/-- C19. A release edge is sticky: once `isRelease_f` is true it is still true after
any `tick`, after any sequence of `tick`s, and after any other member call except
`isRelease` (and the re-initialisation `init`); `isRelease` then returns true and
clears it, so a second call returns false: releases that happened without an
`isRelease` call in between are reported as one. -/
theorem release_edge_sticky (h : Header) (s : GButton) (st : Bool) (now : Nat)
    (xs : List (Bool × Nat)) (c : Call) (hs : s.isRelease_f = true) :
    (tick h s st now).isRelease_f = true ∧
    (run h s xs).isRelease_f = true ∧
    (c ≠ Call.init → c ≠ Call.isRelease → (c.apply h s).isRelease_f = true) ∧
    ((isRelease (run h s xs)).1 = true ∧ (isRelease (run h s xs)).2.isRelease_f = false ∧
      (isRelease (isRelease (run h s xs)).2).1 = false) := by
  have hr := run_isRelease_sticky h xs s hs
  refine ⟨tick_isRelease_sticky h s st now hs, hr,
    fun hi hne => apply_isRelease_sticky h s c hi hne hs, ?_⟩
  generalize run h s xs = u at hr
  simp [isRelease, hr]

/-- C19 at work: two releases (at 1100 and 1400) with a press in between and no
`isRelease` call; the edge is still set after both and is reported once. -/
theorem release_edge_sticky_witness :
    (run hdr (manualButton true) [(true, 1000), (false, 1100)]).isRelease_f = true ∧
    (run hdr (run hdr (manualButton true) [(true, 1000), (false, 1100)])
      [(true, 1300), (false, 1400)]).isRelease_f = true ∧
    (isRelease (run hdr (run hdr (manualButton true) [(true, 1000), (false, 1100)])
      [(true, 1300), (false, 1400)])).1 = true ∧
    (isRelease (isRelease (run hdr (run hdr (manualButton true) [(true, 1000), (false, 1100)])
      [(true, 1300), (false, 1400)])).2).1 = false :=
  have hw := release_edge_sticky hdr (run hdr (manualButton true) [(true, 1000), (false, 1100)])
    true 1300 [(true, 1300), (false, 1400)] (Call.setTickMode false) (by decide)
  ⟨by decide, hw.2.1, hw.2.2.2.1, hw.2.2.2.2.2⟩

/-- C20. A click is reported after a hold: `oneClick_f` is raised by a `tick` that
accepts a press, no `tick` lowers it, no other member call lowers it except `isClick`
(and `init`), and `isClick` keeps it when it returns false. Hence after an accepted
press at `t0` and any further `tick`s, hold onset included, that end released, `isClick`
in manual mode returns true, and false on the next call. -/
theorem click_after_hold (h : Header) (s : GButton) (t0 : Nat) (mid : List (Bool × Nat))
    (c : Call) (pin pin2 : Bool) (now now2 : Nat)
    (hb : s.btn_state = false) (hacc : (tick h s true t0).btn_state = true) :
    (tick h s true t0).oneClick_f = true ∧
    (run h (tick h s true t0) mid).oneClick_f = true ∧
    (c ≠ Call.init → (∀ p n, c ≠ Call.isClick p n) →
      (c.apply h (tick h s true t0)).oneClick_f = true) ∧
    ((isClick h (tick h s true t0) pin now).1 = false →
      (isClick h (tick h s true t0) pin now).2.oneClick_f = true) ∧
    ((run h (tick h s true t0) mid).btn_state = false →
      (run h (tick h s true t0) mid).tickMode = false →
      (isClick h (run h (tick h s true t0) mid) pin now).1 = true ∧
      (isClick h (isClick h (run h (tick h s true t0) mid) pin now).2 pin2 now2).1 = false) := by
  have h1 : (tick h s true t0).oneClick_f = true := by
    revert hacc
    by_cases hd : s._debounce ≤ sub32 t0 s.btn_timer <;> by_cases h0 : s.btn_timer = 0 <;>
      simp [tick, accepts, hb, hd, h0]
  have h2 := run_oneClick_kept h mid _ h1
  have h3 := holdInv_run h mid _ (holdInv_tick h s true t0)
  refine ⟨h1, h2, fun hi hk => apply_oneClick_kept h _ c hi hk h1, ?_, ?_⟩
  · have hu := auto_oneClick_kept h (tick h s true t0) pin now h1
    revert hu
    simp only [isClick]
    generalize (if (tick h s true t0).tickMode = true then tickPin h (tick h s true t0) pin now
      else tick h s true t0) = u
    intro hu
    split_ifs <;> simp [hu]
  · generalize run h (tick h s true t0) mid = v at h2 h3 ⊢
    intro hv hm
    have hh : v.hold_flag = false := by
      cases hf : v.hold_flag
      · rfl
      · rw [h3 hf] at hv
        cases hv
    simp [isClick, hv, hm, hh, h2]

/-- C20 at work with the default timing: press at 1000, hold onset at 1300, release
at 1500; `isClick` then returns true once. -/
theorem click_after_hold_witness :
    (tick hdr (manualButton true) true 1000).btn_state = true ∧
    (run hdr (tick hdr (manualButton true) true 1000) [(true, 1300)]).isHolded_f = true ∧
    (run hdr (tick hdr (manualButton true) true 1000) [(true, 1300), (false, 1500)]).btn_state
      = false ∧
    (isClick hdr (run hdr (tick hdr (manualButton true) true 1000)
      [(true, 1300), (false, 1500)]) false 1500).1 = true ∧
    (isClick hdr (isClick hdr (run hdr (tick hdr (manualButton true) true 1000)
      [(true, 1300), (false, 1500)]) false 1500).2 false 1500).1 = false :=
  have hw := (click_after_hold hdr (manualButton true) 1000 [(true, 1300), (false, 1500)]
    (Call.setTickMode false) false false 1500 1500 (by decide) (by decide)).2.2.2.2
    (by decide) (by decide)
  ⟨by decide, by decide, by decide, hw.1, hw.2⟩

end GyverButton
